import Mathlib

/-!
Verification development for the file-manager server (src/server.py).

The server is shallowly embedded: the filesystem is a value of type `FS`
(directories, regular files with optional readable metadata, and the set of
well-formed zip archives), Python's argument dictionaries become the `Args`
record whose fields distinguish an absent key from a key bound to `None`,
and every `async` handler becomes a total Lean function
`FS → Args → FS × Except Err (List String)` threading the filesystem state
explicitly and returning either the list of produced text payloads or the
raised exception.  Paths are modelled as canonical absolute strings
(`Path.resolve` is the identity on them), and Python string operations used
by the server are re-implemented structurally over character lists so that
every definition evaluates inside the kernel.
-/

/-- A Python value appearing in an MCP argument bag: `None`, a string,
or a number (numbers are modelled as naturals; the server only uses them
as list-slicing limits). -/
inductive PyVal where
  | vnone : PyVal
  | vstr (s : String) : PyVal
  | vnum (n : Nat) : PyVal
deriving DecidableEq, Repr

/-- The argument dictionary of a tool call.  An outer `none` models an
absent key; `some v` models a key present with Python value `v` (which may
itself be `None`, as happens when `handle_unzip_latest` forwards
`args.get("destination")`). -/
structure Args where
  filename : Option PyVal := Option.none
  destination : Option PyVal := Option.none
  source : Option PyVal := Option.none
  subfolder : Option PyVal := Option.none
  destination_folder : Option PyVal := Option.none
  limit : Option PyVal := Option.none
  file_type : Option PyVal := Option.none
  directory : Option PyVal := Option.none
deriving DecidableEq, Repr

/-- The Python exceptions the server can raise, each carrying the message
that `str(e)` would render. -/
inductive Err where
  | valueError (m : String) : Err
  | attributeError (m : String) : Err
  | typeError (m : String) : Err
  | osError (m : String) : Err
  | badZipFile (m : String) : Err
deriving DecidableEq, Repr

/-- `str(e)` for the modelled exceptions. -/
def Err.msg : Err → String
  | .valueError m => m
  | .attributeError m => m
  | .typeError m => m
  | .osError m => m
  | .badZipFile m => m

/-- Metadata returned by a successful `stat()` call. -/
structure Stat where
  size : Nat
  mtime : Nat
deriving DecidableEq, Repr

/-- A regular file.  `stat = none` models an entry whose directory record
is visible (so `iterdir`/`is_file` see it) but whose metadata read fails
(permission error, or a race with deletion between the listing and the
`stat()` call). -/
structure FileEntry where
  path : String
  stat : Option Stat
deriving DecidableEq, Repr

/-- The filesystem state.  `zips` associates the paths of well-formed zip
archives with their entry-name lists (archive order); an existing file
absent from `zips` is a corrupt archive for `zipfile.ZipFile`. -/
structure FS where
  dirs : List String
  files : List FileEntry
  zips : List (String × List String)
deriving DecidableEq, Repr

/-- `Path.home() / "Downloads"` resolved at process start. -/
def DOWNLOADS_DIR : String := "/home/user/Downloads"

/-- `Path.home() / "Documents"` resolved at process start. -/
def DOCUMENTS_DIR : String := "/home/user/Documents"

/-! ### Python string primitives, re-implemented structurally -/

/-- ASCII lowering of one character (the server only lowers ASCII tokens
such as destination aliases and file extensions). -/
def lowerChar (c : Char) : Char :=
  if 'A' ≤ c ∧ c ≤ 'Z' then Char.ofNat (c.toNat + 32) else c

/-- `str.lower()` on an ASCII string. -/
def pyLowerStr (s : String) : String :=
  String.mk (s.data.map lowerChar)

/-- `.lower()` on a Python value: only strings have the attribute. -/
def pyLower : PyVal → Except Err String
  | .vstr s => Except.ok (pyLowerStr s)
  | _ => Except.error (Err.attributeError "object has no attribute lower")

/-- `args.get(k)`: an absent key yields `None`. -/
def pyGet (o : Option PyVal) : PyVal :=
  o.getD PyVal.vnone

/-- `args.get(k, d)`. -/
def pyGetD (o : Option PyVal) (d : PyVal) : PyVal :=
  o.getD d

/-- Python truthiness for the values the server tests. -/
def pyTruthy : PyVal → Bool
  | .vnone => false
  | .vstr s => decide (s ≠ "")
  | .vnum n => decide (n ≠ 0)

/-- Split a character list at every occurrence of `sep`. -/
def splitCharsAux (sep : Char) : List Char → List Char → List (List Char)
  | [], cur => [cur.reverse]
  | c :: rest, cur =>
    if c = sep then cur.reverse :: splitCharsAux sep rest []
    else splitCharsAux sep rest (c :: cur)

/-- Split a string on `/`, as `PurePath` does to obtain path components. -/
def splitSlash (s : String) : List String :=
  (splitCharsAux '/' s.data []).map String.mk

/-- Join path components back with `/`. -/
def joinParts : List String → String
  | [] => ""
  | [x] => x
  | x :: rest => x ++ "/" ++ joinParts rest

/-- `Path(p).name`: the final path component. -/
def baseName (p : String) : String :=
  (splitSlash p).getLastD ""

/-- `Path(p).parent` (as a plain string prefix). -/
def parentDir (p : String) : String :=
  joinParts (splitSlash p).dropLast

/-- Index of the first occurrence of `c`, if any. -/
def firstIdxOf (c : Char) : List Char → Option Nat
  | [] => Option.none
  | x :: rest =>
    if x = c then Option.some 0 else (firstIdxOf c rest).map (fun k => k + 1)

/-- CPython splits `name` into stem and suffix at the last dot provided
that dot is neither the first nor past the last character; otherwise the
suffix is empty.  Returns `(stem, suffix)`.  (The first dot of the
reversed name is the last dot of the name.) -/
def pySplitExt (name : String) : String × String :=
  let cs := name.data
  match firstIdxOf '.' cs.reverse with
  | Option.none => (name, "")
  | Option.some k =>
    let i := cs.length - 1 - k
    if 0 < i ∧ i < cs.length - 1 then
      (String.mk (cs.take i), String.mk (cs.drop i))
    else (name, "")

/-- `Path(p).stem` of the final component of `p`. -/
def pyStemOf (name : String) : String := (pySplitExt name).1

/-- `Path(p).suffix` of the final component of `p`. -/
def pySuffixOf (name : String) : String := (pySplitExt name).2

/-- `"\n".join`-style concatenation. -/
def joinWith (sep : String) : List String → String
  | [] => ""
  | [x] => x
  | x :: rest => x ++ sep ++ joinWith sep rest

/-- `str.lstrip(".")`: drop every leading dot. -/
def stripDots (s : String) : String :=
  String.mk (s.data.dropWhile (fun c => c = '.'))

/-- `str.replace` scan, left to right, non-overlapping: whenever the
(non-empty) pattern is a prefix of the remaining text, rewrite it.  The
fuel argument (instantiated with the text length, which bounds the number
of steps) only makes the recursion structural. -/
def replaceAux : Nat → List Char → List Char → List Char → List Char
  | _, _, _, [] => []
  | 0, _, _, cs => cs
  | fuel + 1, pat, rep, c :: rest =>
    if List.isPrefixOf pat (c :: rest) ∧ pat ≠ [] then
      rep ++ replaceAux fuel pat rep (List.drop pat.length (c :: rest))
    else c :: replaceAux fuel pat rep rest

/-- `str.replace(pat, rep)` (all occurrences, left to right). -/
def pyReplace (s pat rep : String) : String :=
  String.mk (replaceAux s.data.length pat.data rep.data s.data)

/-- `b` ends with `a` in the ordinal, case-sensitive sense. -/
def endsWithStr (s suf : String) : Bool :=
  List.isSuffixOf suf.data s.data

/-- `str(p.relative_to(root))`: strip the `root ++ "/"` prefix. -/
def relTo (root p : String) : String :=
  String.mk (p.data.drop (root.data.length + 1))

/-! ### `fnmatch`-style name matching, as used by `Path.rglob`

`directory.rglob(f"*{extension}")` visits every descendant and keeps those
whose final name matches the shell pattern `*{extension}` (POSIX,
case-sensitive).  The matcher below implements `fnmatch`'s semantics for
one path component: `*` matches any run, `?` any single character, and a
`[...]` class (with optional leading `!` negation and `a-b` ranges)
matches one character; a `[` with no closing `]` is a literal. -/

/-- Find the closing `]` of a character class: the scan starts one past an
optional leading `!` and one mandatory first member (so `]` in either of
those positions is a literal member).  Returns the class body and the rest
of the pattern. -/
def scanClass : List Char → Option (List Char × List Char)
  | [] => Option.none
  | c :: tl =>
    if c = ']' then Option.some ([], tl)
    else (scanClass tl).map (fun r => (c :: r.1, r.2))

def splitBracket : List Char → Option (List Char × List Char)
  | [] => Option.none
  | c :: tl =>
    if c = '!' then
      match tl with
      | [] => Option.none
      | first :: rest => (scanClass rest).map (fun r => ('!' :: first :: r.1, r.2))
    else
      (scanClass tl).map (fun r => (c :: r.1, r.2))

/-- Does one character belong to a class body (negation stripped)?
`a-b` denotes a range unless the `-` is the final character. -/
def classMember : List Char → Char → Bool
  | a :: '-' :: b :: rest, c =>
    if rest = [] ∧ b = ']' then (a = c) || (decide ('-' = c)) -- unreachable: `]` never in body
    else (decide (a ≤ c) && decide (c ≤ b)) || classMember rest c
  | a :: rest, c => (a = c) || classMember rest c
  | [], _ => false

/-- One character against a parsed class (body may carry a leading `!`). -/
def classMatch (body : List Char) (c : Char) : Bool :=
  match body with
  | '!' :: items => !(classMember items c)
  | items => classMember items c

/-- `fnmatch.fnmatchcase` on character lists.  `*` matches a pattern
suffix against every suffix of the text (`List.tails`), the classic
backtracking-free formulation.  The fuel argument (instantiated with the
pattern length, which strictly bounds every recursive pattern, including
the remainder returned by `splitBracket`) only makes the recursion
structural. -/
def fnmatchAux : Nat → List Char → List Char → Bool
  | _, [], s => s.isEmpty
  | 0, _ :: _, _ => false
  | fuel + 1, p :: ps, s =>
    if p = '*' then (List.tails s).any (fun t => fnmatchAux fuel ps t)
    else if p = '?' then
      (match s with
       | [] => false
       | _ :: s1 => fnmatchAux fuel ps s1)
    else if p = '[' then
      (match splitBracket ps with
       | Option.some (body, rest) =>
         (match s with
          | [] => false
          | c :: s1 => classMatch body c && fnmatchAux fuel rest s1)
       | Option.none =>
         (match s with
          | [] => false
          | c :: s1 => ('[' = c) && fnmatchAux fuel ps s1))
    else
      (match s with
       | [] => false
       | c :: s1 => (p = c) && fnmatchAux fuel ps s1)

/-- `fnmatch.fnmatchcase` on character lists. -/
def fnmatchList (pat s : List Char) : Bool :=
  fnmatchAux pat.length pat s

/-- String-level entry point. -/
def fnmatchStr (pat s : String) : Bool :=
  fnmatchList pat.data s.data

/-! ### Filesystem operations -/

/-- `Path.resolve()`.  Paths in this embedding are already canonical
absolute strings, on which resolution is the identity. -/
def resolvePath (s : String) : String := s

/-- `p.exists()`: true for directories and regular files alike. -/
def pathExists (st : FS) (p : String) : Bool :=
  st.files.any (fun f => f.path == p) || st.dirs.any (fun d => d == p)

/-- The directory paths `mkdir(parents=True)` creates for an absolute
`p`: `p` itself together with every proper slash-prefix having at least
two components (the root always exists). -/
def dirAncestors (p : String) : List String :=
  let parts := splitSlash p
  p :: (List.range parts.length).filterMap
    (fun k => if 2 ≤ k then Option.some (joinParts (parts.take k)) else Option.none)

/-- `Path(p).mkdir(parents=True, exist_ok=True)`: succeeds without any
change when `p` is already a directory (`exist_ok` checks only `is_dir`);
otherwise, creating `p` and its missing parents raises `FileExistsError`
or `NotADirectoryError` when `p` or a needed ancestor exists as a regular
file, and succeeds by adding the directories otherwise.  (On the raising
path nothing is recorded as created: in any state a real filesystem can
reach, the blocking file's parents already exist, so the failed call has
created nothing.) -/
def mkdirParents (st : FS) (p : String) : Except Err FS :=
  if st.dirs.any (fun d => d == p) then Except.ok st
  else if (dirAncestors p).any (fun a => st.files.any (fun f => f.path == a)) then
    Except.error (Err.osError ("File exists: " ++ p))
  else Except.ok { st with dirs := dirAncestors p ++ st.dirs }

/-- Extract one regular-file member to `p`, as `zipfile` does: create the
missing parent directories (raising if a regular file blocks the chain),
then open `p` for writing — `NotADirectoryError` when the parent is a
regular file, `IsADirectoryError` when `p` is a directory, otherwise
write (overwriting an existing file). -/
def addFileWithParents (st : FS) (p : String) (s : Stat) : Except Err FS :=
  match (if pathExists st (parentDir p) then Except.ok st
         else mkdirParents st (parentDir p)) with
  | Except.error e => Except.error e
  | Except.ok st1 =>
    if st1.files.any (fun f => f.path == parentDir p) then
      Except.error (Err.osError ("Not a directory: " ++ parentDir p))
    else if st1.dirs.any (fun d => d == p) then
      Except.error (Err.osError ("Is a directory: " ++ p))
    else if st1.files.any (fun f => f.path == p) then
      Except.ok { st1 with
        files := st1.files.map (fun f => if f.path == p then ⟨p, Option.some s⟩ else f) }
    else
      Except.ok { st1 with files := st1.files ++ [⟨p, Option.some s⟩] }

/-- `svg_path.rename(final_dest_path)`. -/
def renameFile (st : FS) (old new : String) : FS :=
  { st with files := st.files.map (fun f => if f.path == old then { f with path := new } else f) }

/-- Look a path up among the well-formed archives. -/
def zipLookup : List (String × List String) → String → Option (List String)
  | [], _ => Option.none
  | (p, es) :: rest, q => if p == q then Option.some es else zipLookup rest q

/-- Drop one trailing `/` (zip directory entries end with one). -/
def trimSlash (e : String) : String :=
  match e.data.reverse with
  | '/' :: rest => String.mk rest.reverse
  | _ => e

/-- `zip_ref.extractall(root)`: each directory entry becomes a directory,
each file entry a regular file under `root`, parents created as needed;
a member whose target conflicts with the existing tree raises, leaving
the members already extracted in place (the returned state).  Extracted
files get fresh metadata (zip-internal dates are irrelevant to every
property considered here, so they are zeroed). -/
def extractAll (st : FS) (root : String) : List String → FS × Option Err
  | [] => (st, Option.none)
  | e :: rest =>
    match (if endsWithStr e "/" then mkdirParents st (root ++ "/" ++ trimSlash e)
           else addFileWithParents st (root ++ "/" ++ e) ⟨0, 0⟩) with
    | Except.error er => (st, Option.some er)
    | Except.ok st1 => extractAll st1 root rest

/-- The regular files `DOWNLOADS_DIR.iterdir()` yields (with `is_file()`
true): immediate children of the downloads root. -/
def downloadsFiles (st : FS) : List FileEntry :=
  st.files.filter (fun f => parentDir f.path == DOWNLOADS_DIR)

/-- The zip candidates both `-latest` handlers and `list_zip_files`
enumerate: immediate files whose lower-cased suffix is `.zip`. -/
def zipCandidates (st : FS) : List FileEntry :=
  (downloadsFiles st).filter (fun f => pyLowerStr (pySuffixOf (baseName f.path)) == ".zip")

/-- `find_files(directory, extension)`: every regular file strictly below
`directory` whose final name matches the shell pattern `*{extension}`,
in enumeration order. -/
def find_files (st : FS) (directory : String) (extension : String) : List String :=
  st.files.filterMap
    (fun f =>
      if List.isPrefixOf (directory ++ "/").data f.path.data &&
          fnmatchStr ("*" ++ extension) (baseName f.path) then
        Option.some f.path
      else Option.none)

/-! ### Collision-safe relocation -/

/-- The `counter`-th probe name `f"{stem}_{counter}{suffix}"` inside
`destDir`. -/
def probeCand (destDir stem sfx : String) (i : Nat) : String :=
  destDir ++ "/" ++ stem ++ "_" ++ Nat.repr i ++ sfx

/-- The `while final_dest_path.exists()` loop, probing `counter = i`,
`i+1`, ...  The fuel argument only bounds the search so the function is
structurally total; `resolveDest` supplies enough fuel for the loop to
find a free name, which `probe_not_exists` proves. -/
def probeLoop (st : FS) (destDir stem sfx : String) : Nat → Nat → String
  | 0, i => probeCand destDir stem sfx i
  | Nat.succ fuel, i =>
    let c := probeCand destDir stem sfx i
    if pathExists st c then probeLoop st destDir stem sfx fuel (i + 1) else c

/-- Number of path entries in the state (an upper bound on how many probe
candidates can collide). -/
def fsPathCount (st : FS) : Nat :=
  st.files.length + st.dirs.length

/-- The collision-resolution step of both relocation handlers: candidate
`destDir / name`, and on collision `f"{stem}_{counter}{suffix}"` with
`counter` starting at 1. -/
def resolveDest (st : FS) (destDir name stem sfx : String) : String :=
  let c0 := destDir ++ "/" ++ name
  if pathExists st c0 then probeLoop st destDir stem sfx (fsPathCount st + 1) 1 else c0

/-- The `for svg_path in svg_files` relocation loop shared verbatim by
`handle_move_svg` and `handle_unzip_and_move_svgs`: each source file is
renamed to its collision-resolved destination, and the final names are
collected in order. -/
def moveLoop (st : FS) (destDir : String) : List String → FS × List String
  | [] => (st, [])
  | p :: ps =>
    let name := baseName p
    let fin := resolveDest st destDir name (pyStemOf name) (pySuffixOf name)
    let st1 := renameFile st p fin
    let r := moveLoop st1 destDir ps
    (r.1, baseName fin :: r.2)

/-! ### Listing, sorting and latest-selection -/

/-- The metadata record `handle_list_zip` builds per file. -/
structure Detail where
  name : String
  size : Nat
  modified : Nat
deriving DecidableEq, Repr

/-- The record `handle_list_recent_downloads` builds (it also stores the
lower-cased, dot-stripped extension). -/
structure RDetail where
  name : String
  size : Nat
  modified : Nat
  extension : String
deriving DecidableEq, Repr

/-- Stable descending insertion: the new element goes before the first
strictly-smaller key, so among equal keys earlier elements stay first. -/
def insertDescBy (key : α → Nat) (x : α) : List α → List α
  | [] => [x]
  | y :: ys => if key y < key x then x :: y :: ys else y :: insertDescBy key x ys

/-- Stable sort, key descending: the model of Python's stable
`list.sort(key=..., reverse=True)`. -/
def sortDescBy (key : α → Nat) : List α → List α
  | [] => []
  | x :: xs => insertDescBy key x (sortDescBy key xs)

/-- `f.stat()` as the server calls it on an enumerated entry. -/
def statOf (f : FileEntry) : Except Err Stat :=
  match f.stat with
  | Option.some s => Except.ok s
  | Option.none => Except.error (Err.osError "stat failed")

/-- `max(files, key=lambda f: f.stat().st_mtime)` on `cur :: rest`:
Python keeps the current maximum on ties, so the first maximum wins;
a failing `stat()` raises out of `max`. -/
def pyMaxAux (cur : FileEntry) (curKey : Nat) : List FileEntry → Except Err FileEntry
  | [] => Except.ok cur
  | x :: xs =>
    match statOf x with
    | Except.error e => Except.error e
    | Except.ok s =>
      if curKey < s.mtime then pyMaxAux x s.mtime xs else pyMaxAux cur curKey xs

/-- `max` over a non-empty enumeration (`[]` cannot reach it: both
callers raise beforehand). -/
def pyMaxByMtime : List FileEntry → Except Err FileEntry
  | [] => Except.error (Err.valueError "max() arg is an empty sequence")
  | x :: xs =>
    match statOf x with
    | Except.error e => Except.error e
    | Except.ok s => pyMaxAux x s.mtime xs

/-! ### The eight handlers

Each handler embeds the corresponding `async def handle_*` of
`src/server.py` as a total function returning the updated filesystem and
either the produced text payloads or the raised exception. -/

/-- The destination-token resolution block of `handle_unzip`: defaults to
downloads when the key is absent; when the key is present, calls
`.lower()` on its value (an `AttributeError` for `None` or a number) and
compares against the two aliases, otherwise resolving the original string
as a path. -/
def destResolve : Option PyVal → Except Err String
  | Option.none => Except.ok DOWNLOADS_DIR
  | Option.some (PyVal.vstr s) =>
    let d := pyLowerStr s
    if d = "downloads" then Except.ok DOWNLOADS_DIR
    else if d = "documents" then Except.ok DOCUMENTS_DIR
    else Except.ok (resolvePath s)
  | Option.some _ => Except.error (Err.attributeError "object has no attribute lower")

/-- Open the archive at `p` (which exists): a directory cannot be opened,
a file outside `zips` is corrupt, otherwise the entry list is returned. -/
def openZip (st : FS) (p : String) : Except Err (List String) :=
  if st.files.any (fun f => f.path == p) then
    match zipLookup st.zips p with
    | Option.some entries => Except.ok entries
    | Option.none => Except.error (Err.badZipFile "File is not a zip file")
  else Except.error (Err.osError ("Is a directory: " ++ p))

/-- `handle_unzip`. -/
def handle_unzip (st : FS) (args : Args) : FS × Except Err (List String) :=
  let filename := pyGet args.filename
  if ¬ pyTruthy filename then
    (st, Except.error (Err.valueError "filename is required"))
  else
    match filename with
    | PyVal.vstr fn =>
      let zip_path := DOWNLOADS_DIR ++ "/" ++ fn
      if ¬ pathExists st zip_path then
        (st, Except.error (Err.valueError ("Zip file not found: " ++ fn)))
      else
        match destResolve args.destination with
        | Except.error e => (st, Except.error e)
        | Except.ok dest_dir =>
          let extract_path := dest_dir ++ "/" ++ pyStemOf (baseName zip_path)
          match mkdirParents st extract_path with
          | Except.error e => (st, Except.error e)
          | Except.ok st1 =>
            match openZip st1 zip_path with
            | Except.error e => (st1, Except.error e)
            | Except.ok entries =>
              let r := extractAll st1 extract_path entries
              match r.2 with
              | Option.some e => (r.1, Except.error e)
              | Option.none =>
                (r.1, Except.ok ["Successfully unzipped " ++ fn ++ " to " ++ extract_path ++
                  "\n\nExtracted " ++ Nat.repr entries.length ++ " files:\n" ++
                  joinWith "\n" entries])
    | _ => (st, Except.error (Err.typeError "argument should be a str or an os.PathLike object"))

/-- `handle_move_svg`. -/
def handle_move_svg (st : FS) (args : Args) : FS × Except Err (List String) :=
  match (match args.source with
         | Option.none => Except.ok DOWNLOADS_DIR
         | Option.some (PyVal.vstr s) => Except.ok (resolvePath s)
         | Option.some _ =>
           Except.error (Err.typeError "argument should be a str or an os.PathLike object")) with
  | Except.error e => (st, Except.error e)
  | Except.ok source_dir =>
    if ¬ pathExists st source_dir then
      (st, Except.error (Err.valueError ("Source directory not found: " ++ source_dir)))
    else
      match (match args.subfolder with
             | Option.none => Except.ok (DOCUMENTS_DIR, st)
             | Option.some (PyVal.vstr sf) =>
               (match mkdirParents st (DOCUMENTS_DIR ++ "/" ++ sf) with
                | Except.error e => Except.error e
                | Except.ok st1 => Except.ok (DOCUMENTS_DIR ++ "/" ++ sf, st1))
             | Option.some _ =>
               Except.error (Err.typeError "argument should be a str or an os.PathLike object")) with
      | Except.error e => (st, Except.error e)
      | Except.ok (dest_dir, st1) =>
        let svg_files := find_files st1 source_dir ".svg"
        if svg_files = [] then
          (st1, Except.ok ["No SVG files found in " ++ source_dir])
        else
          let r := moveLoop st1 dest_dir svg_files
          (r.1, Except.ok ["Successfully moved " ++ Nat.repr r.2.length ++
            " SVG file(s) from " ++ source_dir ++ " to " ++ dest_dir ++
            "\n\nMoved files:\n" ++ joinWith "\n" r.2])

/-- Abstract stand-ins for the localized float/date renderings
(`f"{x:.2f}"`, `strftime`); no considered property depends on their
exact text, only on which number they are applied to. -/
def fmtNum (n : Nat) : String := Nat.repr n

/-- One line of `handle_list_zip` output. -/
def zipLine (d : Detail) : String :=
  d.name ++ " (" ++ fmtNum d.size ++ " MB) - " ++ fmtNum d.modified

/-- The `file_details` loop of `handle_list_zip`: a failing `stat()`
raises out of the whole handler (there is no try/except here). -/
def statDetails : List FileEntry → Except Err (List Detail)
  | [] => Except.ok []
  | f :: fs =>
    match statOf f with
    | Except.error e => Except.error e
    | Except.ok s =>
      match statDetails fs with
      | Except.error e => Except.error e
      | Except.ok ds => Except.ok (⟨baseName f.path, s.size, s.mtime⟩ :: ds)

/-- `file_details[:limit]`: slicing demands an integer. -/
def pySlice (v : PyVal) (l : List α) : Except Err (List α) :=
  match v with
  | PyVal.vnum n => Except.ok (l.take n)
  | _ => Except.error (Err.typeError "slice indices must be integers")

/-- `handle_list_zip`. -/
def handle_list_zip (st : FS) (args : Args) : FS × Except Err (List String) :=
  let limit := pyGetD args.limit (PyVal.vnum 10)
  if ¬ pathExists st DOWNLOADS_DIR then
    (st, Except.error (Err.valueError ("Downloads directory not found: " ++ DOWNLOADS_DIR)))
  else
    let zip_files := zipCandidates st
    if zip_files = [] then
      (st, Except.ok ["No zip files found in " ++ DOWNLOADS_DIR])
    else
      match statDetails zip_files with
      | Except.error e => (st, Except.error e)
      | Except.ok file_details =>
        let sorted := sortDescBy Detail.modified file_details
        match pySlice limit sorted with
        | Except.error e => (st, Except.error e)
        | Except.ok limited =>
          (st, Except.ok ["Found " ++ Nat.repr zip_files.length ++
            " zip file(s) in Downloads (showing " ++ Nat.repr limited.length ++
            " most recent):\n\n" ++ joinWith "\n" (limited.map zipLine)])

/-- `handle_list_svg`. -/
def handle_list_svg (st : FS) (args : Args) : FS × Except Err (List String) :=
  match (match args.directory with
         | Option.none => Except.ok DOWNLOADS_DIR
         | Option.some (PyVal.vstr s) => Except.ok (resolvePath s)
         | Option.some _ =>
           Except.error (Err.typeError "argument should be a str or an os.PathLike object")) with
  | Except.error e => (st, Except.error e)
  | Except.ok search_dir =>
    if ¬ pathExists st search_dir then
      (st, Except.error (Err.valueError ("Directory not found: " ++ search_dir)))
    else
      let svg_files := find_files st search_dir ".svg"
      if svg_files = [] then
        (st, Except.ok ["No SVG files found in " ++ search_dir])
      else
        (st, Except.ok ["Found " ++ Nat.repr svg_files.length ++ " SVG file(s) in " ++
          search_dir ++ ":\n\n" ++ joinWith "\n" (svg_files.map (relTo search_dir))])

/-- `handle_unzip_and_move_svgs`. -/
def handle_unzip_and_move_svgs (st : FS) (args : Args) : FS × Except Err (List String) :=
  let filename := pyGet args.filename
  let destination_folder := pyGet args.destination_folder
  if ¬ pyTruthy filename then
    (st, Except.error (Err.valueError "filename is required"))
  else if ¬ pyTruthy destination_folder then
    (st, Except.error (Err.valueError "destination_folder is required"))
  else
    match filename with
    | PyVal.vstr fn =>
      let zip_path := DOWNLOADS_DIR ++ "/" ++ fn
      if ¬ pathExists st zip_path then
        (st, Except.error (Err.valueError ("Zip file not found: " ++ fn)))
      else
        let extract_path := DOWNLOADS_DIR ++ "/" ++ pyStemOf (baseName zip_path)
        match mkdirParents st extract_path with
        | Except.error e => (st, Except.error e)
        | Except.ok st1 =>
          match openZip st1 zip_path with
          | Except.error e => (st1, Except.error e)
          | Except.ok entries =>
            match extractAll st1 extract_path entries with
            | (stp, Option.some e) => (stp, Except.error e)
            | (st2, Option.none) =>
              let total_files := entries.length
              let svg_files := find_files st2 extract_path ".svg"
              if svg_files = [] then
                (st2, Except.ok ["Successfully unzipped " ++ fn ++ " (" ++
                  Nat.repr total_files ++ " files) to " ++ extract_path ++
                  "\n\nBut no SVG files were found in the archive."])
              else
                match destination_folder with
                | PyVal.vstr df =>
                  let dest_dir := DOCUMENTS_DIR ++ "/" ++ df
                  (match mkdirParents st2 dest_dir with
                   | Except.error e => (st2, Except.error e)
                   | Except.ok st3 =>
                     let r := moveLoop st3 dest_dir svg_files
                     (r.1, Except.ok ["Success! 🎉\n\n1. Unzipped " ++ fn ++ " (" ++
                       Nat.repr total_files ++ " total files)\n2. Found " ++
                       Nat.repr svg_files.length ++
                       " SVG file(s)\n3. Moved all SVGs to Documents\\" ++
                       df ++ "\n\nMoved files:\n" ++ joinWith "\n" r.2]))
                | _ => (st2, Except.error (Err.typeError "argument should be a str or an os.PathLike object"))
    | _ => (st, Except.error (Err.typeError "argument should be a str or an os.PathLike object"))

/-- One line of `handle_list_recent_downloads` output. -/
def recentLine (index : Nat) (d : RDetail) : String :=
  let display_size :=
    if 1024 * 1024 < d.size then fmtNum d.size ++ " MB" else fmtNum d.size ++ " KB"
  let badge := if index = 0 then " [LATEST]" else ""
  d.name ++ badge ++ "\n  Size: " ++ display_size ++ " | Downloaded: " ++ fmtNum d.modified

/-- The listing loop of `handle_list_recent_downloads`: entries whose
`stat()` fails are skipped (`try`/`except`), the rest carry their
lower-cased dot-stripped extension. -/
def recentDetails (st : FS) : List RDetail :=
  (downloadsFiles st).filterMap
    (fun f => f.stat.map
      (fun s => ⟨baseName f.path, s.size, s.mtime,
                 stripDots (pyLowerStr (pySuffixOf (baseName f.path)))⟩))

/-- `handle_list_recent_downloads`. -/
def handle_list_recent_downloads (st : FS) (args : Args) : FS × Except Err (List String) :=
  let limit := pyGetD args.limit (PyVal.vnum 10)
  match pyLower (pyGetD args.file_type (PyVal.vstr "")) with
  | Except.error e => (st, Except.error e)
  | Except.ok file_type =>
    if ¬ pathExists st DOWNLOADS_DIR then
      (st, Except.error (Err.valueError ("Downloads directory not found: " ++ DOWNLOADS_DIR)))
    else
      let file_details :=
        if file_type ≠ "" then (recentDetails st).filter (fun d => d.extension == file_type)
        else recentDetails st
      if file_details = [] then
        let type_msg := if file_type ≠ "" then " of type '" ++ file_type ++ "'" else ""
        (st, Except.ok ["No files" ++ type_msg ++ " found in Downloads"])
      else
        let sorted := sortDescBy RDetail.modified file_details
        match pySlice limit sorted with
        | Except.error e => (st, Except.error e)
        | Except.ok limited =>
          let lines := limited.enum.map (fun p => recentLine p.1 p.2)
          let type_msg := if file_type ≠ "" then " (filtered to ." ++ file_type ++ " files)" else ""
          (st, Except.ok ["Recent downloads" ++ type_msg ++ " (showing " ++
            Nat.repr limited.length ++ " of " ++ Nat.repr file_details.length ++
            "):\n\n" ++ joinWith "\n\n" lines])

/-- `handle_unzip_latest`: select the newest zip, then delegate to
`handle_unzip` with the selected filename and the *forwarded*
`args.get("destination")` — the `destination` key of the delegated bag is
therefore always present, possibly bound to `None`. -/
def handle_unzip_latest (st : FS) (args : Args) : FS × Except Err (List String) :=
  if ¬ pathExists st DOWNLOADS_DIR then
    (st, Except.error (Err.valueError ("Downloads directory not found: " ++ DOWNLOADS_DIR)))
  else
    let zip_files := zipCandidates st
    if zip_files = [] then
      (st, Except.error (Err.valueError "No zip files found in Downloads"))
    else
      match pyMaxByMtime zip_files with
      | Except.error e => (st, Except.error e)
      | Except.ok latest_zip =>
        let nm := baseName latest_zip.path
        let r := handle_unzip st
          { filename := Option.some (PyVal.vstr nm),
            destination := Option.some (pyGet args.destination) }
        match r with
        | (st1, Except.ok msgs) =>
          (st1, Except.ok [pyReplace (msgs.headD "")
            ("Successfully unzipped " ++ nm)
            ("Successfully unzipped the latest download: " ++ nm)])
        | (st1, Except.error e) => (st1, Except.error e)

/-- `handle_unzip_latest_and_move_svgs`. -/
def handle_unzip_latest_and_move_svgs (st : FS) (args : Args) : FS × Except Err (List String) :=
  let destination_folder := pyGet args.destination_folder
  if ¬ pyTruthy destination_folder then
    (st, Except.error (Err.valueError "destination_folder is required"))
  else if ¬ pathExists st DOWNLOADS_DIR then
    (st, Except.error (Err.valueError ("Downloads directory not found: " ++ DOWNLOADS_DIR)))
  else
    let zip_files := zipCandidates st
    if zip_files = [] then
      (st, Except.error (Err.valueError "No zip files found in Downloads"))
    else
      match pyMaxByMtime zip_files with
      | Except.error e => (st, Except.error e)
      | Except.ok latest_zip =>
        handle_unzip_and_move_svgs st
          { filename := Option.some (PyVal.vstr (baseName latest_zip.path)),
            destination_folder := Option.some destination_folder }

/-- The `try:` body of `call_tool`: string-keyed dispatch with the
unknown-operation `ValueError`. -/
def dispatchInner (st : FS) (name : String) (args : Args) : FS × Except Err (List String) :=
  if name = "unzip_file" then handle_unzip st args
  else if name = "move_svg_files" then handle_move_svg st args
  else if name = "list_zip_files" then handle_list_zip st args
  else if name = "list_svg_files" then handle_list_svg st args
  else if name = "unzip_and_move_svgs" then handle_unzip_and_move_svgs st args
  else if name = "list_recent_downloads" then handle_list_recent_downloads st args
  else if name = "unzip_latest" then handle_unzip_latest st args
  else if name = "unzip_latest_and_move_svgs" then handle_unzip_latest_and_move_svgs st args
  else (st, Except.error (Err.valueError ("Unknown tool: " ++ name)))

/-- `call_tool`: every exception raised by the dispatched handler is
caught and rendered as the single `"Error: "`-prefixed payload. -/
def call_tool (st : FS) (name : String) (args : Args) : FS × List String :=
  match dispatchInner st name args with
  | (st1, Except.ok msgs) => (st1, msgs)
  | (st1, Except.error e) => (st1, ["Error: " ++ e.msg])

/-! ### Proof-support definitions -/

/-- Decimal digit string of `n`, most significant first (specification
companion of core's fuel-based `Nat.toDigitsCore`). -/
def decRepr (n : Nat) : List Char :=
  if h : n < 10 then [Nat.digitChar n]
  else decRepr (n / 10) ++ [Nat.digitChar (n % 10)]
termination_by n
decreasing_by
  exact Nat.div_lt_self (by omega) (by omega)

/-- Read a decimal digit string back (digits as ASCII codes). -/
def parseDec (acc : Nat) : List Char → Nat
  | [] => acc
  | c :: cs => parseDec (acc * 10 + (c.toNat - 48)) cs

/-- Every existing path of the state, as one list. -/
def allPaths (st : FS) : List String :=
  st.files.map FileEntry.path ++ st.dirs

/-- The modification time of an entry whose metadata is readable
(`0` as a don't-care default for unreadable ones). -/
def mtimeOf (f : FileEntry) : Nat :=
  match f.stat with
  | Option.some s => s.mtime
  | Option.none => 0

/-- The eight registered operation identifiers (from `list_tools`). -/
def toolNames : List String :=
  ["unzip_file", "move_svg_files", "list_zip_files", "list_svg_files",
   "unzip_and_move_svgs", "list_recent_downloads", "unzip_latest",
   "unzip_latest_and_move_svgs"]

/-- Concrete scenario: `documents` already holds `icon.svg`, and the
source tree holds two further files named `icon.svg`. -/
def stIconMove : FS :=
  { dirs := ["/home/user/Downloads", "/home/user/Downloads/src",
             "/home/user/Downloads/src/a", "/home/user/Downloads/src/b",
             "/home/user/Documents"],
    files := [⟨"/home/user/Documents/icon.svg", Option.some ⟨1, 1⟩⟩,
              ⟨"/home/user/Downloads/src/a/icon.svg", Option.some ⟨2, 2⟩⟩,
              ⟨"/home/user/Downloads/src/b/icon.svg", Option.some ⟨3, 3⟩⟩],
    zips := [] }

/-- Concrete scenario: a zip holding `icon.svg` is extracted and relocated
into a documents subfolder that already holds `icon.svg`. -/
def stIconZip : FS :=
  { dirs := ["/home/user/Downloads", "/home/user/Documents",
             "/home/user/Documents/Icons"],
    files := [⟨"/home/user/Downloads/pack.zip", Option.some ⟨5, 50⟩⟩,
              ⟨"/home/user/Documents/Icons/icon.svg", Option.some ⟨1, 1⟩⟩],
    zips := [("/home/user/Downloads/pack.zip", ["icon.svg"])] }

/-! ### Decimal representation is injective -/

theorem digitChar_val {k : Nat} (h : k < 10) : (Nat.digitChar k).toNat - 48 = k := by
  interval_cases k <;> rfl

theorem decRepr_lt {n : Nat} (h : n < 10) : decRepr n = [Nat.digitChar n] := by
  rw [decRepr, dif_pos h]

theorem decRepr_ge {n : Nat} (h : ¬ n < 10) :
    decRepr n = decRepr (n / 10) ++ [Nat.digitChar (n % 10)] := by
  rw [decRepr, dif_neg h]

theorem toDigitsCore_eq_decRepr :
    ∀ fuel n acc, n < fuel → Nat.toDigitsCore 10 fuel n acc = decRepr n ++ acc := by
  intro fuel
  induction fuel with
  | zero => intro n acc h; omega
  | succ f ih =>
    intro n acc h
    rw [Nat.toDigitsCore]
    by_cases h10 : n / 10 = 0
    · rw [if_pos h10]
      have hn : n < 10 := by
        rcases Nat.lt_or_ge n 10 with h1 | h1
        · exact h1
        · exact absurd h10 (by have := Nat.div_le_div_right (c := 10) h1; simp at this; omega)
      rw [decRepr_lt hn, Nat.mod_eq_of_lt hn]
      rfl
    · rw [if_neg h10]
      have hge : 10 ≤ n := by
        by_contra hlt
        exact h10 (Nat.div_eq_of_lt (by omega))
      have hdiv : n / 10 < n := Nat.div_lt_self (by omega) (by omega)
      rw [ih (n / 10) (Nat.digitChar (n % 10) :: acc) (by omega)]
      rw [decRepr_ge (n := n) (by omega)]
      simp [List.append_assoc]

theorem parseDec_append : ∀ xs ys acc, parseDec acc (xs ++ ys) = parseDec (parseDec acc xs) ys := by
  intro xs
  induction xs with
  | nil => intro ys acc; rfl
  | cons c cs ih =>
    intro ys acc
    show parseDec (acc * 10 + (c.toNat - 48)) (cs ++ ys) =
      parseDec (parseDec (acc * 10 + (c.toNat - 48)) cs) ys
    exact ih ys (acc * 10 + (c.toNat - 48))

theorem parseDec_decRepr : ∀ n acc, parseDec acc (decRepr n) = acc * 10 ^ (decRepr n).length + n := by
  intro n
  induction n using Nat.strong_induction_on with
  | _ n ih =>
    intro acc
    by_cases h : n < 10
    · rw [decRepr_lt h]
      show acc * 10 + ((Nat.digitChar n).toNat - 48) = acc * 10 ^ 1 + n
      rw [digitChar_val h, pow_one]
    · rw [decRepr_ge h]
      rw [parseDec_append]
      have hdiv : n / 10 < n := Nat.div_lt_self (by omega) (by omega)
      rw [ih (n / 10) hdiv acc]
      have hmod : n % 10 < 10 := Nat.mod_lt n (by omega)
      have hlen : ((decRepr (n / 10)) ++ [Nat.digitChar (n % 10)]).length
          = (decRepr (n / 10)).length + 1 := by
        rw [List.length_append, List.length_cons, List.length_nil]
      rw [hlen, pow_succ]
      show (acc * 10 ^ (decRepr (n / 10)).length + n / 10) * 10 +
          ((Nat.digitChar (n % 10)).toNat - 48) =
          acc * (10 ^ (decRepr (n / 10)).length * 10) + n
      rw [digitChar_val hmod]
      have hdm := Nat.div_add_mod n 10
      have hring : (acc * 10 ^ (decRepr (n / 10)).length + n / 10) * 10 + n % 10
          = acc * (10 ^ (decRepr (n / 10)).length * 10) + (10 * (n / 10) + n % 10) := by
        ring
      rw [hring, hdm]

theorem decRepr_injective : Function.Injective decRepr := by
  intro a b h
  have ha := parseDec_decRepr a 0
  have hb := parseDec_decRepr b 0
  rw [h] at ha
  simp only [Nat.zero_mul, Nat.zero_add] at ha hb
  omega

theorem nat_repr_injective : Function.Injective Nat.repr := by
  intro a b h
  have ha : Nat.repr a = (decRepr a).asString := by
    show (Nat.toDigits 10 a).asString = _
    rw [Nat.toDigits, toDigitsCore_eq_decRepr (a + 1) a [] (by omega), List.append_nil]
  have hb : Nat.repr b = (decRepr b).asString := by
    show (Nat.toDigits 10 b).asString = _
    rw [Nat.toDigits, toDigitsCore_eq_decRepr (b + 1) b [] (by omega), List.append_nil]
  rw [ha, hb] at h
  exact decRepr_injective (congrArg String.data h)

/-! ### The collision probe never returns an existing path -/

theorem probeCand_injective (d s x : String) : Function.Injective (probeCand d s x) := by
  intro i j h
  unfold probeCand at h
  have h1 := congrArg String.data h
  simp only [String.data_append] at h1
  have h2 := List.append_cancel_right h1
  have h3 := List.append_cancel_left h2
  have h4 : Nat.repr i = Nat.repr j := congrArg String.mk h3
  exact nat_repr_injective h4

theorem pathExists_iff (st : FS) (p : String) :
    pathExists st p = true ↔ p ∈ allPaths st := by
  simp only [pathExists, allPaths, Bool.or_eq_true, List.any_eq_true, beq_iff_eq,
    List.mem_append, List.mem_map]
  constructor
  · rintro (⟨f, hf, rfl⟩ | ⟨dd, hd, rfl⟩)
    · exact Or.inl ⟨f, hf, rfl⟩
    · exact Or.inr hd
  · rintro (⟨f, hf, rfl⟩ | hd)
    · exact Or.inl ⟨f, hf, rfl⟩
    · exact Or.inr ⟨p, hd, rfl⟩

theorem probeLoop_free (st : FS) (d s x : String) :
    ∀ fuel i, (∃ j, i ≤ j ∧ j < i + fuel ∧ pathExists st (probeCand d s x j) = false) →
    pathExists st (probeLoop st d s x fuel i) = false := by
  intro fuel
  induction fuel with
  | zero =>
    rintro i ⟨j, h1, h2, _⟩
    omega
  | succ f ih =>
    rintro i ⟨j, h1, h2, h3⟩
    show pathExists st
      (if pathExists st (probeCand d s x i) then probeLoop st d s x f (i + 1)
       else probeCand d s x i) = false
    by_cases hc : pathExists st (probeCand d s x i) = true
    · rw [if_pos hc]
      apply ih (i + 1)
      have hji : j ≠ i := by
        intro he
        rw [← he, h3] at hc
        cases hc
      exact ⟨j, by omega, by omega, h3⟩
    · rw [if_neg hc]
      cases hb : pathExists st (probeCand d s x i)
      · rfl
      · exact absurd hb hc

theorem exists_free_cand (st : FS) (d s x : String) :
    ∃ j, 1 ≤ j ∧ j < 1 + (fsPathCount st + 1) ∧
      pathExists st (probeCand d s x j) = false := by
  by_contra hall
  push_neg at hall
  have hmem : ∀ j ∈ List.range' 1 (fsPathCount st + 1), probeCand d s x j ∈ allPaths st := by
    intro j hj
    rw [List.mem_range'_1] at hj
    have hne := hall j hj.1 (by omega)
    have : pathExists st (probeCand d s x j) = true := by
      cases hb : pathExists st (probeCand d s x j)
      · exact absurd hb hne
      · rfl
    exact (pathExists_iff st _).mp this
  have hsub : (List.range' 1 (fsPathCount st + 1)).map (probeCand d s x) ⊆ allPaths st := by
    intro y hy
    rcases List.mem_map.mp hy with ⟨j, hj, rfl⟩
    exact hmem j hj
  have hnd : ((List.range' 1 (fsPathCount st + 1)).map (probeCand d s x)).Nodup :=
    (List.nodup_range' 1 (fsPathCount st + 1) 1).map (probeCand_injective d s x)
  have hlen := List.Subperm.length_le (List.subperm_of_subset hnd hsub)
  rw [List.length_map, List.length_range'] at hlen
  have hA : (allPaths st).length = fsPathCount st := by
    rw [allPaths, List.length_append, List.length_map]
    rfl
  omega

theorem resolveDest_not_exists (st : FS) (destDir name stem sfx : String) :
    pathExists st (resolveDest st destDir name stem sfx) = false := by
  unfold resolveDest
  by_cases h0 : pathExists st (destDir ++ "/" ++ name) = true
  · rw [if_pos h0]
    exact probeLoop_free st destDir stem sfx (fsPathCount st + 1) 1
      (exists_free_cand st destDir stem sfx)
  · rw [if_neg h0]
    cases hb : pathExists st (destDir ++ "/" ++ name)
    · rfl
    · exact absurd hb h0

/-! ### Claim C1 -/

/-- C1: no relocation performed by `move_svg_files` or
`unzip_and_move_svgs` ever overwrites an existing file.  The
collision-resolution step `resolveDest` (candidate = source file name,
then `"{stem}_{counter}{suffix}"` with `counter` = 1, 2, ... ) returns,
for every filesystem state, a path that does not exist in that state —
and every move of the shared relocation loop `moveLoop` resolves its
destination against the state current at that move.  In particular, with
`icon.svg` already in the destination, relocating one source `icon.svg`
yields `icon_1.svg` and a second yields `icon_2.svg`, both for
`move_svg_files` and for `unzip_and_move_svgs`. -/
theorem C1_collision_safe_relocation :
    (∀ st destDir name stem sfx,
      pathExists st (resolveDest st destDir name stem sfx) = false) ∧
    (handle_move_svg stIconMove
        { source := Option.some (PyVal.vstr "/home/user/Downloads/src") }).2 =
      Except.ok ["Successfully moved 2 SVG file(s) from /home/user/Downloads/src to /home/user/Documents\n\nMoved files:\nicon_1.svg\nicon_2.svg"] ∧
    (handle_unzip_and_move_svgs stIconZip
        { filename := Option.some (PyVal.vstr "pack.zip"),
          destination_folder := Option.some (PyVal.vstr "Icons") }).2 =
      Except.ok ["Success! 🎉\n\n1. Unzipped pack.zip (1 total files)\n2. Found 1 SVG file(s)\n3. Moved all SVGs to Documents\\Icons\n\nMoved files:\nicon_1.svg"] := by
  refine ⟨resolveDest_not_exists, ?_, ?_⟩
  · rfl
  · rfl

/-! ### State-shape helper lemmas -/

theorem moveLoop_dirs (d : String) :
    ∀ ps st, (moveLoop st d ps).1.dirs = st.dirs := by
  intro ps
  induction ps with
  | nil => intro st; rfl
  | cons p ps ih =>
    intro st
    show (moveLoop (renameFile st p _) d ps).1.dirs = st.dirs
    rw [ih]
    rfl

theorem mem_dirAncestors_self (p : String) : p ∈ dirAncestors p := by
  unfold dirAncestors
  exact List.mem_cons_self p _

theorem isPrefixOf_append_self : ∀ (l m : List Char), List.isPrefixOf l (l ++ m) = true := by
  intro l m
  induction l with
  | nil => simp [List.isPrefixOf]
  | cons c cs ih => simp [List.isPrefixOf, ih]

/-! ### Claim C8 -/

/-- C8: the dispatch boundary is total: for every operation name and
argument bag, either the dispatched handler succeeded and its payloads are
returned unchanged, or the handler raised and `call_tool` returns exactly
one text payload prefixed with `"Error: "` followed by the exception
message; an unknown operation name yields the `"Error: Unknown tool"`
payload with the state untouched. -/
theorem C8_dispatch_never_propagates (st : FS) (name : String) (args : Args) :
    ((∃ msgs, (dispatchInner st name args).2 = Except.ok msgs ∧
        (call_tool st name args).2 = msgs) ∨
      (∃ e, (dispatchInner st name args).2 = Except.error e ∧
        (call_tool st name args).2 = ["Error: " ++ Err.msg e] ∧
        (call_tool st name args).2.length = 1 ∧
        ∀ t ∈ (call_tool st name args).2,
          List.isPrefixOf "Error: ".data t.data = true)) ∧
    (name ∉ toolNames →
      call_tool st name args = (st, ["Error: Unknown tool: " ++ name])) := by
  constructor
  · rcases hdi : dispatchInner st name args with ⟨st1, r⟩
    cases r with
    | ok msgs =>
      left
      refine ⟨msgs, rfl, ?_⟩
      unfold call_tool
      rw [hdi]
    | error e =>
      right
      refine ⟨e, rfl, ?_, ?_, ?_⟩
      · unfold call_tool
        rw [hdi]
      · unfold call_tool
        rw [hdi]
        rfl
      · unfold call_tool
        rw [hdi]
        intro t ht
        rcases List.mem_singleton.mp ht with rfl
        have : ("Error: " ++ Err.msg e).data = "Error: ".data ++ (Err.msg e).data :=
          String.data_append _ _
        rw [this]
        exact isPrefixOf_append_self _ _
  · intro hn
    simp only [toolNames, List.mem_cons, List.not_mem_nil, or_false, not_or] at hn
    obtain ⟨n1, n2, n3, n4, n5, n6, n7, n8⟩ := hn
    have hdisp : dispatchInner st name args =
        (st, Except.error (Err.valueError ("Unknown tool: " ++ name))) := by
      unfold dispatchInner
      rw [if_neg n1, if_neg n2, if_neg n3, if_neg n4, if_neg n5, if_neg n6,
        if_neg n7, if_neg n8]
    unfold call_tool
    rw [hdisp]
    rfl

/-- C8 witness: an unknown operation on the empty state. -/
theorem C8_dispatch_never_propagates_witness :
    ("bogus" ∉ toolNames) ∧
    call_tool ⟨[], [], []⟩ "bogus" {} = (⟨[], [], []⟩, ["Error: Unknown tool: bogus"]) :=
  ⟨by decide, (C8_dispatch_never_propagates ⟨[], [], []⟩ "bogus" {}).2 (by decide)⟩

/-! ### Directory-creation facts -/

theorem mkdirParents_ok {st st1 : FS} {p : String}
    (h : mkdirParents st p = Except.ok st1) :
    p ∈ st1.dirs ∧ st1.files = st.files ∧ st1.zips = st.zips ∧
    (∀ d ∈ st.dirs, d ∈ st1.dirs) ∧
    (p ∉ st.dirs → ∀ a ∈ dirAncestors p, a ∈ st1.dirs) := by
  unfold mkdirParents at h
  by_cases h1 : st.dirs.any (fun d => d == p) = true
  · rw [if_pos h1] at h
    injection h with h
    subst h
    have hp : p ∈ st.dirs := by
      rcases List.any_eq_true.mp h1 with ⟨d, hd, hdp⟩
      rw [beq_iff_eq] at hdp
      exact hdp ▸ hd
    exact ⟨hp, rfl, rfl, fun d hd => hd, fun hnp => absurd hp hnp⟩
  · rw [if_neg h1] at h
    by_cases h2 : ((dirAncestors p).any (fun a => st.files.any (fun f => f.path == a))) = true
    · rw [if_pos h2] at h
      cases h
    · rw [if_neg h2] at h
      injection h with h
      subst h
      refine ⟨List.mem_append_left _ (mem_dirAncestors_self p), rfl, rfl, ?_, ?_⟩
      · intro d hd
        exact List.mem_append_right _ hd
      · intro _ a ha
        exact List.mem_append_left _ ha

theorem find_files_congr {st st1 : FS} (h : st1.files = st.files) (root ext : String) :
    find_files st1 root ext = find_files st root ext := by
  unfold find_files
  rw [h]

/-! ### Claim C9 -/

/-- C9: whenever `move_svg_files` is invoked with a `subfolder` argument,
the resolved source directory exists, and the subfolder `mkdir` succeeds
(no regular file occupies the subfolder path or a needed parent — there
Python raises `FileExistsError`/`NotADirectoryError` and creates
nothing), the Documents subfolder is created before the suffix search
runs and is present in the final state — in both the zero-match branch
and the move branch — and if it was missing beforehand, so are all its
previously missing parents. -/
theorem C9_subfolder_created_before_search (st st1 : FS) (src sf : String)
    (hsrc : pathExists st src = true)
    (hmk : mkdirParents st (DOCUMENTS_DIR ++ "/" ++ sf) = Except.ok st1) :
    ((DOCUMENTS_DIR ++ "/" ++ sf) ∈
      (handle_move_svg st { source := Option.some (PyVal.vstr src),
                            subfolder := Option.some (PyVal.vstr sf) }).1.dirs) ∧
    ((DOCUMENTS_DIR ++ "/" ++ sf) ∉ st.dirs →
      ∀ a ∈ dirAncestors (DOCUMENTS_DIR ++ "/" ++ sf),
        a ∈ (handle_move_svg st { source := Option.some (PyVal.vstr src),
                                  subfolder := Option.some (PyVal.vstr sf) }).1.dirs) := by
  obtain ⟨hp, hfiles, hzips, hsup, hanc⟩ := mkdirParents_ok hmk
  have hdirs : (handle_move_svg st
        { source := Option.some (PyVal.vstr src),
          subfolder := Option.some (PyVal.vstr sf) }).1.dirs = st1.dirs := by
    unfold handle_move_svg
    dsimp only
    dsimp only [resolvePath]
    rw [if_neg (not_not_intro hsrc), hmk]
    dsimp only
    by_cases hf : find_files st1 src ".svg" = []
    · rw [if_pos hf]
    · rw [if_neg hf]
      rw [moveLoop_dirs]
  constructor
  · rw [hdirs]
    exact hp
  · intro hnot a ha
    rw [hdirs]
    exact hanc hnot a ha

/-- C9 witness: an empty source directory and a two-level subfolder. -/
theorem C9_subfolder_created_before_search_witness :
    pathExists ⟨["/home/user/Downloads"], [], []⟩ "/home/user/Downloads" = true ∧
    mkdirParents ⟨["/home/user/Downloads"], [], []⟩ "/home/user/Documents/Projects/Icons"
      = Except.ok ⟨["/home/user/Documents/Projects/Icons", "/home", "/home/user",
          "/home/user/Documents", "/home/user/Documents/Projects",
          "/home/user/Downloads"], [], []⟩ ∧
    ("/home/user/Documents/Projects/Icons" ∈
      (handle_move_svg ⟨["/home/user/Downloads"], [], []⟩
        { source := Option.some (PyVal.vstr "/home/user/Downloads"),
          subfolder := Option.some (PyVal.vstr "Projects/Icons") }).1.dirs) := by
  refine ⟨by decide, by rfl, ?_⟩
  exact (C9_subfolder_created_before_search ⟨["/home/user/Downloads"], [], []⟩
    ⟨["/home/user/Documents/Projects/Icons", "/home", "/home/user",
      "/home/user/Documents", "/home/user/Documents/Projects",
      "/home/user/Downloads"], [], []⟩
    "/home/user/Downloads" "Projects/Icons" (by decide) (by rfl)).1

/-! ### Claim C10 -/

theorem handle_unzip_corrupt (st st1 : FS) (fn : String) (dv : Option PyVal) (dd : String)
    (hfn : fn ≠ "")
    (hfile : st.files.any (fun f => f.path == DOWNLOADS_DIR ++ "/" ++ fn) = true)
    (hcorrupt : zipLookup st.zips (DOWNLOADS_DIR ++ "/" ++ fn) = Option.none)
    (hdd : destResolve dv = Except.ok dd)
    (hmk : mkdirParents st (dd ++ "/" ++ pyStemOf (baseName (DOWNLOADS_DIR ++ "/" ++ fn)))
      = Except.ok st1) :
    handle_unzip st { filename := Option.some (PyVal.vstr fn), destination := dv }
      = (st1, Except.error (Err.badZipFile "File is not a zip file")) := by
  obtain ⟨hp, hfiles, hzips, _, _⟩ := mkdirParents_ok hmk
  have htr : pyTruthy (PyVal.vstr fn) = true := by simp [pyTruthy, hfn]
  have hex : pathExists st (DOWNLOADS_DIR ++ "/" ++ fn) = true := by
    simp only [pathExists, hfile, Bool.true_or]
  unfold handle_unzip
  dsimp only [pyGet, Option.getD]
  rw [if_neg (not_not_intro htr), if_neg (not_not_intro hex), hdd]
  dsimp only
  rw [hmk]
  dsimp only
  have hopen : openZip st1 (DOWNLOADS_DIR ++ "/" ++ fn)
      = Except.error (Err.badZipFile "File is not a zip file") := by
    unfold openZip
    rw [hfiles, if_pos hfile, hzips, hcorrupt]
  rw [hopen]

/-- C10: when `unzip_file` is invoked on an existing file that is not a
well-formed archive and the extraction-subdirectory `mkdir` succeeds (no
regular file occupies the subdirectory path or a needed parent — there
Python raises `FileExistsError` before the archive is even opened, and
creates nothing), the operation fails with the zip-parse error, yet the
extraction subdirectory (destination root joined with the archive stem)
exists in the final state: the failing operation is not atomic.  The
destination argument may be absent or any string. -/
theorem C10_corrupt_archive_leaves_extraction_dir (st st1 : FS) (fn : String)
    (dopt : Option String) (dd : String)
    (hfn : fn ≠ "")
    (hfile : st.files.any (fun f => f.path == DOWNLOADS_DIR ++ "/" ++ fn) = true)
    (hcorrupt : zipLookup st.zips (DOWNLOADS_DIR ++ "/" ++ fn) = Option.none)
    (hdd : destResolve (dopt.map PyVal.vstr) = Except.ok dd)
    (hmk : mkdirParents st (dd ++ "/" ++ pyStemOf (baseName (DOWNLOADS_DIR ++ "/" ++ fn)))
      = Except.ok st1) :
    (handle_unzip st { filename := Option.some (PyVal.vstr fn),
                       destination := dopt.map PyVal.vstr }).2
      = Except.error (Err.badZipFile "File is not a zip file") ∧
    (dd ++ "/" ++ pyStemOf (baseName (DOWNLOADS_DIR ++ "/" ++ fn)))
      ∈ (handle_unzip st { filename := Option.some (PyVal.vstr fn),
                           destination := dopt.map PyVal.vstr }).1.dirs := by
  have hmain := handle_unzip_corrupt st st1 fn (dopt.map PyVal.vstr) dd
    hfn hfile hcorrupt hdd hmk
  obtain ⟨hp, _, _, _, _⟩ := mkdirParents_ok hmk
  rw [hmain]
  exact ⟨rfl, hp⟩

/-- C10 witness: a one-byte corrupt `bad.zip` in downloads, no
destination argument; the extraction directory `Downloads/bad` is
unobstructed. -/
theorem C10_corrupt_archive_leaves_extraction_dir_witness :
    ("bad.zip" ≠ "") ∧
    (FS.mk ["/home/user/Downloads"]
        [⟨"/home/user/Downloads/bad.zip", Option.some ⟨1, 1⟩⟩] []).files.any
      (fun f => f.path == DOWNLOADS_DIR ++ "/" ++ "bad.zip") = true ∧
    zipLookup (FS.mk ["/home/user/Downloads"]
        [⟨"/home/user/Downloads/bad.zip", Option.some ⟨1, 1⟩⟩] []).zips
      (DOWNLOADS_DIR ++ "/" ++ "bad.zip") = Option.none ∧
    destResolve ((Option.none : Option String).map PyVal.vstr)
      = Except.ok DOWNLOADS_DIR ∧
    mkdirParents (FS.mk ["/home/user/Downloads"]
        [⟨"/home/user/Downloads/bad.zip", Option.some ⟨1, 1⟩⟩] [])
      (DOWNLOADS_DIR ++ "/" ++ pyStemOf (baseName (DOWNLOADS_DIR ++ "/" ++ "bad.zip")))
      = Except.ok (FS.mk ["/home/user/Downloads/bad", "/home", "/home/user",
          "/home/user/Downloads", "/home/user/Downloads"]
          [⟨"/home/user/Downloads/bad.zip", Option.some ⟨1, 1⟩⟩] []) ∧
    ((handle_unzip (FS.mk ["/home/user/Downloads"]
          [⟨"/home/user/Downloads/bad.zip", Option.some ⟨1, 1⟩⟩] [])
        { filename := Option.some (PyVal.vstr "bad.zip"),
          destination := (Option.none : Option String).map PyVal.vstr }).2
        = Except.error (Err.badZipFile "File is not a zip file") ∧
      (DOWNLOADS_DIR ++ "/" ++ pyStemOf (baseName (DOWNLOADS_DIR ++ "/" ++ "bad.zip")))
        ∈ (handle_unzip (FS.mk ["/home/user/Downloads"]
            [⟨"/home/user/Downloads/bad.zip", Option.some ⟨1, 1⟩⟩] [])
          { filename := Option.some (PyVal.vstr "bad.zip"),
            destination := (Option.none : Option String).map PyVal.vstr }).1.dirs) := by
  refine ⟨by decide, by decide, by decide, by rfl, by rfl, ?_⟩
  exact C10_corrupt_archive_leaves_extraction_dir
    (FS.mk ["/home/user/Downloads"]
      [⟨"/home/user/Downloads/bad.zip", Option.some ⟨1, 1⟩⟩] [])
    (FS.mk ["/home/user/Downloads/bad", "/home", "/home/user",
      "/home/user/Downloads", "/home/user/Downloads"]
      [⟨"/home/user/Downloads/bad.zip", Option.some ⟨1, 1⟩⟩] [])
    "bad.zip" Option.none DOWNLOADS_DIR
    (by decide) (by decide) (by decide) (by rfl) (by rfl)

/-! ### Claim C7 -/

/-- C7: zero matching files is not a failure.  `move_svg_files` with an
existing source and no `.svg` match returns the success payload naming
the searched directory — both without a subfolder argument and with one
whose `mkdir` succeeds; `unzip_and_move_svgs` whose extraction completes
but yields no `.svg` returns the partial-success payload (extraction
succeeded, no SVGs), in all cases `Except.ok`, never an error. -/
theorem C7_zero_matches_not_failure :
    (∀ (st : FS) (src : String),
      pathExists st src = true →
      find_files st src ".svg" = [] →
      (handle_move_svg st { source := Option.some (PyVal.vstr src) }).2
        = Except.ok ["No SVG files found in " ++ src]) ∧
    (∀ (st st1 : FS) (src sf : String),
      pathExists st src = true →
      mkdirParents st (DOCUMENTS_DIR ++ "/" ++ sf) = Except.ok st1 →
      find_files st src ".svg" = [] →
      (handle_move_svg st { source := Option.some (PyVal.vstr src),
                            subfolder := Option.some (PyVal.vstr sf) }).2
        = Except.ok ["No SVG files found in " ++ src]) ∧
    (∀ (st st1 st2 : FS) (fn df : String) (es : List String),
      fn ≠ "" → df ≠ "" →
      st.files.any (fun f => f.path == DOWNLOADS_DIR ++ "/" ++ fn) = true →
      zipLookup st.zips (DOWNLOADS_DIR ++ "/" ++ fn) = Option.some es →
      mkdirParents st
          (DOWNLOADS_DIR ++ "/" ++ pyStemOf (baseName (DOWNLOADS_DIR ++ "/" ++ fn)))
        = Except.ok st1 →
      extractAll st1
          (DOWNLOADS_DIR ++ "/" ++ pyStemOf (baseName (DOWNLOADS_DIR ++ "/" ++ fn))) es
        = (st2, Option.none) →
      find_files st2
          (DOWNLOADS_DIR ++ "/" ++ pyStemOf (baseName (DOWNLOADS_DIR ++ "/" ++ fn)))
          ".svg" = [] →
      (handle_unzip_and_move_svgs st
          { filename := Option.some (PyVal.vstr fn),
            destination_folder := Option.some (PyVal.vstr df) }).2
        = Except.ok ["Successfully unzipped " ++ fn ++ " (" ++ Nat.repr es.length ++
            " files) to " ++
            (DOWNLOADS_DIR ++ "/" ++ pyStemOf (baseName (DOWNLOADS_DIR ++ "/" ++ fn))) ++
            "\n\nBut no SVG files were found in the archive."]) := by
  refine ⟨?_, ?_, ?_⟩
  · intro st src hsrc hf
    unfold handle_move_svg
    dsimp only
    dsimp only [resolvePath]
    rw [if_neg (not_not_intro hsrc)]
    rw [if_pos hf]
  · intro st st1 src sf hsrc hmk hf
    obtain ⟨_, hfiles, _, _, _⟩ := mkdirParents_ok hmk
    unfold handle_move_svg
    dsimp only
    dsimp only [resolvePath]
    rw [if_neg (not_not_intro hsrc), hmk]
    dsimp only
    rw [if_pos (show find_files st1 src ".svg" = [] from by
      rw [find_files_congr hfiles]
      exact hf)]
  · intro st st1 st2 fn df es hfn hdf hfile hzip hmk hext hfind
    obtain ⟨_, hfiles, hzips, _, _⟩ := mkdirParents_ok hmk
    have htrfn : pyTruthy (PyVal.vstr fn) = true := by simp [pyTruthy, hfn]
    have htrdf : pyTruthy (PyVal.vstr df) = true := by simp [pyTruthy, hdf]
    have hex : pathExists st (DOWNLOADS_DIR ++ "/" ++ fn) = true := by
      simp only [pathExists, hfile, Bool.true_or]
    unfold handle_unzip_and_move_svgs
    dsimp only [pyGet, Option.getD]
    rw [if_neg (not_not_intro htrfn), if_neg (not_not_intro htrdf),
      if_neg (not_not_intro hex), hmk]
    dsimp only
    have hopen : openZip st1 (DOWNLOADS_DIR ++ "/" ++ fn) = Except.ok es := by
      unfold openZip
      rw [hfiles, if_pos hfile, hzips, hzip]
    rw [hopen]
    dsimp only
    rw [hext]
    dsimp only
    rw [if_pos hfind]

/-- C7 witness: a source directory holding only a text file (with and
without a subfolder), and a zip holding only a text entry. -/
theorem C7_zero_matches_not_failure_witness :
    (pathExists ⟨["/home/user/Downloads"],
        [⟨"/home/user/Downloads/readme.txt", Option.some ⟨1, 1⟩⟩], []⟩
        "/home/user/Downloads" = true ∧
      find_files ⟨["/home/user/Downloads"],
        [⟨"/home/user/Downloads/readme.txt", Option.some ⟨1, 1⟩⟩], []⟩
        "/home/user/Downloads" ".svg" = [] ∧
      (handle_move_svg ⟨["/home/user/Downloads"],
          [⟨"/home/user/Downloads/readme.txt", Option.some ⟨1, 1⟩⟩], []⟩
        { source := Option.some (PyVal.vstr "/home/user/Downloads") }).2
        = Except.ok ["No SVG files found in /home/user/Downloads"]) ∧
    ((handle_unzip_and_move_svgs ⟨["/home/user/Downloads"],
          [⟨"/home/user/Downloads/t.zip", Option.some ⟨1, 1⟩⟩],
          [("/home/user/Downloads/t.zip", ["readme.txt"])]⟩
        { filename := Option.some (PyVal.vstr "t.zip"),
          destination_folder := Option.some (PyVal.vstr "Icons") }).2
        = Except.ok ["Successfully unzipped t.zip (1 files) to /home/user/Downloads/t\n\nBut no SVG files were found in the archive."]) := by
  constructor
  · refine ⟨by decide, by decide, ?_⟩
    exact (C7_zero_matches_not_failure).1 ⟨["/home/user/Downloads"],
      [⟨"/home/user/Downloads/readme.txt", Option.some ⟨1, 1⟩⟩], []⟩
      "/home/user/Downloads" (by decide) (by decide)
  · have h := (C7_zero_matches_not_failure).2.2
      ⟨["/home/user/Downloads"],
        [⟨"/home/user/Downloads/t.zip", Option.some ⟨1, 1⟩⟩],
        [("/home/user/Downloads/t.zip", ["readme.txt"])]⟩
      (FS.mk ["/home/user/Downloads/t", "/home", "/home/user",
        "/home/user/Downloads", "/home/user/Downloads"]
        [⟨"/home/user/Downloads/t.zip", Option.some ⟨1, 1⟩⟩]
        [("/home/user/Downloads/t.zip", ["readme.txt"])])
      (FS.mk ["/home/user/Downloads/t", "/home", "/home/user",
        "/home/user/Downloads", "/home/user/Downloads"]
        [⟨"/home/user/Downloads/t.zip", Option.some ⟨1, 1⟩⟩,
         ⟨"/home/user/Downloads/t/readme.txt", Option.some ⟨0, 0⟩⟩]
        [("/home/user/Downloads/t.zip", ["readme.txt"])])
      "t.zip" "Icons" ["readme.txt"] (by decide) (by decide) (by decide)
      (by rfl) (by rfl) (by rfl) (by decide)
    exact h

/-! ### Claim C5 -/

theorem statOf_ok {f : FileEntry} (h : f.stat ≠ Option.none) :
    ∃ s, statOf f = Except.ok s ∧ s.mtime = mtimeOf f := by
  cases hs : f.stat with
  | none => exact absurd hs h
  | some s => exact ⟨s, by simp [statOf, hs], by simp [mtimeOf, hs]⟩

theorem pyMaxAux_spec :
    ∀ (xs : List FileEntry) (cur : FileEntry),
      (∀ f ∈ cur :: xs, f.stat ≠ Option.none) →
      ∃ g l₁ l₂,
        pyMaxAux cur (mtimeOf cur) xs = Except.ok g ∧
        cur :: xs = l₁ ++ g :: l₂ ∧
        (∀ x ∈ cur :: xs, mtimeOf x ≤ mtimeOf g) ∧
        (∀ x ∈ l₁, mtimeOf x < mtimeOf g) := by
  intro xs
  induction xs with
  | nil =>
    intro cur _
    refine ⟨cur, [], [], rfl, rfl, ?_, by simp⟩
    intro x hx
    rcases List.mem_singleton.mp hx with rfl
    exact Nat.le_refl _
  | cons x rest ih =>
    intro cur hok
    obtain ⟨s, hs, hsm⟩ := statOf_ok (hok x (by simp))
    have hstep : pyMaxAux cur (mtimeOf cur) (x :: rest)
        = if mtimeOf cur < s.mtime then pyMaxAux x s.mtime rest
          else pyMaxAux cur (mtimeOf cur) rest := by
      show (match statOf x with
            | Except.error e => Except.error e
            | Except.ok s =>
              if mtimeOf cur < s.mtime then pyMaxAux x s.mtime rest
              else pyMaxAux cur (mtimeOf cur) rest) = _
      rw [hs]
    by_cases hcmp : mtimeOf cur < s.mtime
    · obtain ⟨g, l₁, l₂, heq, hdec, hmax, hpre⟩ := ih x (by
        intro f hf
        exact hok f (by simpa using Or.inr hf))
      refine ⟨g, cur :: l₁, l₂, ?_, ?_, ?_, ?_⟩
      · rw [hstep, if_pos hcmp, hsm]
        exact heq
      · rw [List.cons_append, ← hdec]
      · intro y hy
        rcases List.mem_cons.mp hy with rfl | hy2
        · have hxg : mtimeOf x ≤ mtimeOf g := hmax x (by simp)
          omega
        · exact hmax y hy2
      · intro y hy
        rcases List.mem_cons.mp hy with rfl | hy2
        · have hxg : mtimeOf x ≤ mtimeOf g := hmax x (by simp)
          omega
        · exact hpre y hy2
    · obtain ⟨g, l₁, l₂, heq, hdec, hmax, hpre⟩ := ih cur (by
        intro f hf
        rcases List.mem_cons.mp hf with rfl | hf2
        · exact hok f (by simp)
        · exact hok f (by simpa using Or.inr (Or.inr hf2)))
      have hxle : mtimeOf x ≤ mtimeOf cur := by omega
      have heq2 : pyMaxAux cur (mtimeOf cur) (x :: rest) = Except.ok g := by
        rw [hstep, if_neg hcmp]
        exact heq
      cases l₁ with
      | nil =>
        have hg : cur = g := by
          have := hdec
          simp at this
          exact this.1
        subst hg
        refine ⟨cur, [], x :: rest, heq2, by simp, ?_, by simp⟩
        intro y hy
        rcases List.mem_cons.mp hy with rfl | hy2
        · exact Nat.le_refl _
        · rcases List.mem_cons.mp hy2 with rfl | hy3
          · omega
          · exact hmax y (List.mem_cons_of_mem _ hy3)
      | cons a t =>
        have hdec2 : cur = a ∧ rest = t ++ g :: l₂ := by
          have := hdec
          rw [List.cons_append] at this
          exact ⟨by injection this, by injection this⟩
        obtain ⟨rfl, hrest⟩ := hdec2
        have hcurlt : mtimeOf cur < mtimeOf g := hpre cur (by simp)
        refine ⟨g, cur :: x :: t, l₂, heq2, ?_, ?_, ?_⟩
        · rw [hrest]
          simp
        · intro y hy
          rcases List.mem_cons.mp hy with rfl | hy2
          · exact hmax y (by simp)
          · rcases List.mem_cons.mp hy2 with rfl | hy3
            · omega
            · exact hmax y (List.mem_cons_of_mem _ hy3)
        · intro y hy
          rcases List.mem_cons.mp hy with rfl | hy2
          · exact hcurlt
          · rcases List.mem_cons.mp hy2 with rfl | hy3
            · omega
            · exact hpre y (by simp [hy3])

theorem pyMaxByMtime_spec (l : List FileEntry) (hne : l ≠ [])
    (hok : ∀ f ∈ l, f.stat ≠ Option.none) :
    ∃ g l₁ l₂,
      pyMaxByMtime l = Except.ok g ∧
      l = l₁ ++ g :: l₂ ∧
      (∀ x ∈ l, mtimeOf x ≤ mtimeOf g) ∧
      (∀ x ∈ l₁, mtimeOf x < mtimeOf g) := by
  cases l with
  | nil => exact absurd rfl hne
  | cons cur xs =>
    obtain ⟨s, hs, hsm⟩ := statOf_ok (hok cur (by simp))
    obtain ⟨g, l₁, l₂, heq, hdec, hmax, hpre⟩ := pyMaxAux_spec xs cur hok
    refine ⟨g, l₁, l₂, ?_, hdec, hmax, hpre⟩
    show (match statOf cur with
          | Except.error e => Except.error e
          | Except.ok s => pyMaxAux cur s.mtime xs) = Except.ok g
    rw [hs]
    show pyMaxAux cur s.mtime xs = Except.ok g
    rw [hsm]
    exact heq

/-- C5: the latest-selection step of `unzip_latest` and
`unzip_latest_and_move_svgs`.  On an empty zip-candidate set both
handlers raise the no-archives error before selecting anything; on a
non-empty set (with readable metadata) the selection `pyMaxByMtime`, the
very `max(..., key=st_mtime)` both handlers call, returns an element of
maximal modification time, and among equal maxima the first one in
enumeration order: every earlier candidate is strictly older. -/
theorem C5_latest_selection :
    (∀ (st : FS) (dv : Option PyVal) (df : String),
      pathExists st DOWNLOADS_DIR = true →
      zipCandidates st = [] →
      df ≠ "" →
      handle_unzip_latest st { destination := dv }
        = (st, Except.error (Err.valueError "No zip files found in Downloads")) ∧
      handle_unzip_latest_and_move_svgs st
          { destination_folder := Option.some (PyVal.vstr df) }
        = (st, Except.error (Err.valueError "No zip files found in Downloads"))) ∧
    (∀ st : FS, zipCandidates st ≠ [] →
      (∀ f ∈ zipCandidates st, f.stat ≠ Option.none) →
      ∃ g l₁ l₂,
        pyMaxByMtime (zipCandidates st) = Except.ok g ∧
        zipCandidates st = l₁ ++ g :: l₂ ∧
        (∀ x ∈ zipCandidates st, mtimeOf x ≤ mtimeOf g) ∧
        (∀ x ∈ l₁, mtimeOf x < mtimeOf g)) := by
  constructor
  · intro st dv df hdl hempty hdf
    constructor
    · unfold handle_unzip_latest
      rw [if_neg (not_not_intro hdl)]
      dsimp only
      rw [if_pos hempty]
    · have htrdf : pyTruthy (PyVal.vstr df) = true := by simp [pyTruthy, hdf]
      unfold handle_unzip_latest_and_move_svgs
      dsimp only [pyGet, Option.getD]
      rw [if_neg (not_not_intro htrdf), if_neg (not_not_intro hdl)]
      rw [if_pos hempty]
  · intro st hne hok
    exact pyMaxByMtime_spec (zipCandidates st) hne hok

/-- C5 witness: an empty downloads directory for the failure half, and
three zips at times 100, 200, 200 for the selection half (the first of
the two ties, at time 200, wins). -/
theorem C5_latest_selection_witness :
    (pathExists ⟨["/home/user/Downloads"], [], []⟩ DOWNLOADS_DIR = true ∧
      zipCandidates ⟨["/home/user/Downloads"], [], []⟩ = [] ∧
      ("D" ≠ "") ∧
      handle_unzip_latest ⟨["/home/user/Downloads"], [], []⟩
          { destination := Option.none }
        = (⟨["/home/user/Downloads"], [], []⟩,
           Except.error (Err.valueError "No zip files found in Downloads"))) ∧
    (zipCandidates ⟨["/home/user/Downloads"],
        [⟨"/home/user/Downloads/a.zip", Option.some ⟨1, 100⟩⟩,
         ⟨"/home/user/Downloads/b.zip", Option.some ⟨1, 200⟩⟩,
         ⟨"/home/user/Downloads/c.zip", Option.some ⟨1, 200⟩⟩], []⟩ ≠ [] ∧
      (∃ g l₁ l₂,
        pyMaxByMtime (zipCandidates ⟨["/home/user/Downloads"],
          [⟨"/home/user/Downloads/a.zip", Option.some ⟨1, 100⟩⟩,
           ⟨"/home/user/Downloads/b.zip", Option.some ⟨1, 200⟩⟩,
           ⟨"/home/user/Downloads/c.zip", Option.some ⟨1, 200⟩⟩], []⟩)
          = Except.ok g ∧
        zipCandidates ⟨["/home/user/Downloads"],
          [⟨"/home/user/Downloads/a.zip", Option.some ⟨1, 100⟩⟩,
           ⟨"/home/user/Downloads/b.zip", Option.some ⟨1, 200⟩⟩,
           ⟨"/home/user/Downloads/c.zip", Option.some ⟨1, 200⟩⟩], []⟩
          = l₁ ++ g :: l₂ ∧
        (∀ x ∈ zipCandidates ⟨["/home/user/Downloads"],
          [⟨"/home/user/Downloads/a.zip", Option.some ⟨1, 100⟩⟩,
           ⟨"/home/user/Downloads/b.zip", Option.some ⟨1, 200⟩⟩,
           ⟨"/home/user/Downloads/c.zip", Option.some ⟨1, 200⟩⟩], []⟩,
          mtimeOf x ≤ mtimeOf g) ∧
        (∀ x ∈ l₁, mtimeOf x < mtimeOf g))) := by
  constructor
  · refine ⟨by decide, by decide, by decide, ?_⟩
    exact ((C5_latest_selection).1 ⟨["/home/user/Downloads"], [], []⟩
      Option.none "D" (by decide) (by decide) (by decide)).1
  · refine ⟨by decide, ?_⟩
    exact (C5_latest_selection).2 ⟨["/home/user/Downloads"],
      [⟨"/home/user/Downloads/a.zip", Option.some ⟨1, 100⟩⟩,
       ⟨"/home/user/Downloads/b.zip", Option.some ⟨1, 200⟩⟩,
       ⟨"/home/user/Downloads/c.zip", Option.some ⟨1, 200⟩⟩], []⟩
      (by decide) (by decide)

/-! ### Stable descending sort: permutation and sortedness -/

theorem insertDescBy_perm (key : α → Nat) (x : α) :
    ∀ l : List α, (insertDescBy key x l).Perm (x :: l) := by
  intro l
  induction l with
  | nil => exact List.Perm.refl _
  | cons y ys ih =>
    show (if key y < key x then x :: y :: ys else y :: insertDescBy key x ys).Perm _
    by_cases hc : key y < key x
    · rw [if_pos hc]
    · rw [if_neg hc]
      exact (ih.cons y).trans (List.Perm.swap x y ys)

theorem sortDescBy_perm (key : α → Nat) :
    ∀ l : List α, (sortDescBy key l).Perm l := by
  intro l
  induction l with
  | nil => exact List.Perm.refl _
  | cons x xs ih =>
    show (insertDescBy key x (sortDescBy key xs)).Perm (x :: xs)
    exact (insertDescBy_perm key x (sortDescBy key xs)).trans (ih.cons x)

theorem insertDescBy_pairwise (key : α → Nat) (x : α) :
    ∀ l : List α, l.Pairwise (fun a b => key b ≤ key a) →
      (insertDescBy key x l).Pairwise (fun a b => key b ≤ key a) := by
  intro l
  induction l with
  | nil => intro _; simp [insertDescBy]
  | cons y ys ih =>
    intro h
    rw [List.pairwise_cons] at h
    obtain ⟨hy, hys⟩ := h
    show (if key y < key x then x :: y :: ys else y :: insertDescBy key x ys).Pairwise _
    by_cases hc : key y < key x
    · rw [if_pos hc]
      refine List.Pairwise.cons ?_ (List.Pairwise.cons hy hys)
      intro z hz
      rcases List.mem_cons.mp hz with rfl | hz2
      · omega
      · have := hy z hz2
        omega
    · rw [if_neg hc]
      refine List.Pairwise.cons ?_ (ih hys)
      intro z hz
      have hz3 := (insertDescBy_perm key x ys).mem_iff.mp hz
      rcases List.mem_cons.mp hz3 with rfl | hz4
      · omega
      · exact hy z hz4

theorem sortDescBy_pairwise (key : α → Nat) :
    ∀ l : List α, (sortDescBy key l).Pairwise (fun a b => key b ≤ key a) := by
  intro l
  induction l with
  | nil => exact List.Pairwise.nil
  | cons x xs ih =>
    show (insertDescBy key x (sortDescBy key xs)).Pairwise _
    exact insertDescBy_pairwise key x (sortDescBy key xs) ih

/-! ### Claim C6 -/

/-- C6: `list_zip_files` reports the downloads zips sorted by
modification time descending and truncated to the `limit` argument, whose
default is 10 (first conjunct: the absent-limit call is the `limit = 10`
call).  The reported list is the `limit`-prefix of the stable descending
sort of the enumerated details: it is pairwise descending, has length
`min limit count`, and draws only from the enumerated files.  In
particular over three zips with mtimes `t1 < t2 < t3` and `limit = 2`,
exactly the `t3` file then the `t2` file are kept, in that order. -/
theorem C6_list_archives_sorted_truncated :
    (∀ st : FS, handle_list_zip st {}
      = handle_list_zip st { limit := Option.some (PyVal.vnum 10) }) ∧
    (∀ (st : FS) (n : Nat) (details : List Detail),
      pathExists st DOWNLOADS_DIR = true →
      zipCandidates st ≠ [] →
      statDetails (zipCandidates st) = Except.ok details →
      (handle_list_zip st { limit := Option.some (PyVal.vnum n) }).2
        = Except.ok ["Found " ++ Nat.repr (zipCandidates st).length ++
            " zip file(s) in Downloads (showing " ++
            Nat.repr ((sortDescBy Detail.modified details).take n).length ++
            " most recent):\n\n" ++
            joinWith "\n" (((sortDescBy Detail.modified details).take n).map zipLine)] ∧
      ((sortDescBy Detail.modified details).take n).Pairwise
        (fun a b => b.modified ≤ a.modified) ∧
      ((sortDescBy Detail.modified details).take n).length = min n details.length ∧
      (∀ d ∈ (sortDescBy Detail.modified details).take n, d ∈ details)) ∧
    (∀ (s1 s2 s3 t1 t2 t3 : Nat), t1 < t2 → t2 < t3 →
      ((sortDescBy Detail.modified
          [⟨"a.zip", s1, t1⟩, ⟨"b.zip", s2, t2⟩, ⟨"c.zip", s3, t3⟩]).take 2).map
        Detail.name = ["c.zip", "b.zip"]) := by
  refine ⟨?_, ?_, ?_⟩
  · intro st
    rfl
  · intro st n details hdl hne hdet
    unfold handle_list_zip
    dsimp only [pyGetD, Option.getD]
    rw [if_neg (not_not_intro hdl), if_neg hne, hdet]
    dsimp only [pySlice]
    refine ⟨rfl, ?_, ?_, ?_⟩
    · exact List.Pairwise.sublist (List.take_sublist n _)
        (sortDescBy_pairwise Detail.modified details)
    · rw [List.length_take, (sortDescBy_perm Detail.modified details).length_eq]
    · intro d hd
      exact ((sortDescBy_perm Detail.modified details).mem_iff).mp
        ((List.take_sublist n _).subset hd)
  · intro s1 s2 s3 t1 t2 t3 h12 h23
    have ha : ¬ t3 < t2 := by omega
    have hb : ¬ t3 < t1 := by omega
    have hc : ¬ t2 < t1 := by omega
    simp [sortDescBy, insertDescBy, ha, hb, hc]

/-- C6 witness: three zips at mtimes 100 < 200 < 300 and limit 2. -/
theorem C6_list_archives_sorted_truncated_witness :
    (pathExists ⟨["/home/user/Downloads"],
        [⟨"/home/user/Downloads/a.zip", Option.some ⟨1, 100⟩⟩,
         ⟨"/home/user/Downloads/b.zip", Option.some ⟨1, 200⟩⟩,
         ⟨"/home/user/Downloads/c.zip", Option.some ⟨1, 300⟩⟩], []⟩
      DOWNLOADS_DIR = true ∧
     zipCandidates ⟨["/home/user/Downloads"],
        [⟨"/home/user/Downloads/a.zip", Option.some ⟨1, 100⟩⟩,
         ⟨"/home/user/Downloads/b.zip", Option.some ⟨1, 200⟩⟩,
         ⟨"/home/user/Downloads/c.zip", Option.some ⟨1, 300⟩⟩], []⟩ ≠ [] ∧
     statDetails (zipCandidates ⟨["/home/user/Downloads"],
        [⟨"/home/user/Downloads/a.zip", Option.some ⟨1, 100⟩⟩,
         ⟨"/home/user/Downloads/b.zip", Option.some ⟨1, 200⟩⟩,
         ⟨"/home/user/Downloads/c.zip", Option.some ⟨1, 300⟩⟩], []⟩)
       = Except.ok [⟨"a.zip", 1, 100⟩, ⟨"b.zip", 1, 200⟩, ⟨"c.zip", 1, 300⟩] ∧
     ((sortDescBy Detail.modified
         [⟨"a.zip", 1, 100⟩, ⟨"b.zip", 1, 200⟩, ⟨"c.zip", 1, 300⟩]).take 2).Pairwise
       (fun a b => b.modified ≤ a.modified)) ∧
    (((sortDescBy Detail.modified
        [⟨"a.zip", 1, 100⟩, ⟨"b.zip", 1, 200⟩, ⟨"c.zip", 1, 300⟩]).take 2).map
      Detail.name = ["c.zip", "b.zip"]) := by
  constructor
  · refine ⟨by decide, by decide, by rfl, ?_⟩
    exact ((C6_list_archives_sorted_truncated).2.1 ⟨["/home/user/Downloads"],
      [⟨"/home/user/Downloads/a.zip", Option.some ⟨1, 100⟩⟩,
       ⟨"/home/user/Downloads/b.zip", Option.some ⟨1, 200⟩⟩,
       ⟨"/home/user/Downloads/c.zip", Option.some ⟨1, 300⟩⟩], []⟩ 2
      [⟨"a.zip", 1, 100⟩, ⟨"b.zip", 1, 200⟩, ⟨"c.zip", 1, 300⟩]
      (by decide) (by decide) (by rfl)).2.1
  · exact (C6_list_archives_sorted_truncated).2.2 1 1 1 100 200 300
      (by decide) (by decide)

/-! ### Claim C3 -/

/-- C3 counterexample: downloads holds `bad.zip` (whose metadata read
fails) next to a perfectly readable `ok.zip`; `list_zip_files` does not
skip the bad entry — the whole call fails with the propagated stat error,
contradicting the claim that every directory-listing operation skips such
entries and still succeeds. -/
theorem C3_list_zip_does_not_skip_counterexample :
    (handle_list_zip ⟨["/home/user/Downloads"],
        [⟨"/home/user/Downloads/bad.zip", Option.none⟩,
         ⟨"/home/user/Downloads/ok.zip", Option.some ⟨1, 1⟩⟩], []⟩ {}).2
      = Except.error (Err.osError "stat failed") ∧
    (handle_list_zip ⟨["/home/user/Downloads"],
        [⟨"/home/user/Downloads/bad.zip", Option.none⟩,
         ⟨"/home/user/Downloads/ok.zip", Option.some ⟨1, 1⟩⟩], []⟩ {}).2.isOk
      = false := ⟨rfl, rfl⟩

theorem statDetails_error_of_bad :
    ∀ l : List FileEntry, (∃ f ∈ l, f.stat = Option.none) →
      statDetails l = Except.error (Err.osError "stat failed") := by
  intro l
  induction l with
  | nil => rintro ⟨f, hf, _⟩; cases hf
  | cons x rest ih =>
    rintro ⟨f, hf, hbad⟩
    rcases List.mem_cons.mp hf with rfl | hf2
    · show (match statOf f with
            | Except.error e => Except.error e
            | Except.ok s =>
              match statDetails rest with
              | Except.error e => Except.error e
              | Except.ok ds => Except.ok (Detail.mk (baseName f.path) s.size s.mtime :: ds)) = _
      rw [show statOf f = Except.error (Err.osError "stat failed") by
        simp [statOf, hbad]]
    · cases hx : x.stat with
      | none =>
        show (match statOf x with
              | Except.error e => Except.error e
              | Except.ok s =>
                match statDetails rest with
                | Except.error e => Except.error e
                | Except.ok ds => Except.ok (Detail.mk (baseName x.path) s.size s.mtime :: ds)) = _
        rw [show statOf x = Except.error (Err.osError "stat failed") by
          simp [statOf, hx]]
      | some s =>
        show (match statOf x with
              | Except.error e => Except.error e
              | Except.ok s =>
                match statDetails rest with
                | Except.error e => Except.error e
                | Except.ok ds => Except.ok (Detail.mk (baseName x.path) s.size s.mtime :: ds)) = _
        rw [show statOf x = Except.ok s by simp [statOf, hx]]
        rw [ih ⟨f, hf2, hbad⟩]

/-- C3 amended: only `list_recent_downloads` skips entries whose metadata
cannot be read — the call succeeds, its detail list draws exactly from
the readable entries (every detail comes from a readable file, every
readable file contributes its detail) — whereas `list_zip_files`
propagates the metadata failure and the whole call fails whenever any
enumerated zip entry is unreadable. -/
theorem C3_only_list_recent_skips_unreadable :
    (∀ st : FS, pathExists st DOWNLOADS_DIR = true →
      (handle_list_recent_downloads st {}).2.isOk = true ∧
      (∀ d ∈ recentDetails st, ∃ f, f ∈ downloadsFiles st ∧
        f.stat = Option.some ⟨d.size, d.modified⟩ ∧ d.name = baseName f.path) ∧
      (∀ f ∈ downloadsFiles st, ∀ s : Stat, f.stat = Option.some s →
        (⟨baseName f.path, s.size, s.mtime,
          stripDots (pyLowerStr (pySuffixOf (baseName f.path)))⟩ : RDetail)
          ∈ recentDetails st)) ∧
    (∀ st : FS, pathExists st DOWNLOADS_DIR = true →
      zipCandidates st ≠ [] →
      (∃ f ∈ zipCandidates st, f.stat = Option.none) →
      (handle_list_zip st {}).2 = Except.error (Err.osError "stat failed")) := by
  constructor
  · intro st hdl
    refine ⟨?_, ?_, ?_⟩
    · unfold handle_list_recent_downloads
      dsimp only [pyGetD, Option.getD, pyLower]
      rw [if_neg (not_not_intro hdl)]
      have hft : pyLowerStr "" = "" := rfl
      rw [hft]
      rw [if_neg (show ¬ ("" ≠ "") by simp)]
      by_cases hempty : recentDetails st = []
      · rw [if_pos hempty]
        rfl
      · rw [if_neg hempty]
        dsimp only [pySlice]
        rfl
    · intro d hd
      rw [recentDetails] at hd
      rcases List.mem_filterMap.mp hd with ⟨f, hf, hmap⟩
      cases hs : f.stat with
      | none => rw [hs] at hmap; cases hmap
      | some s =>
        rw [hs] at hmap
        simp only [Option.map_some', Option.some.injEq] at hmap
        refine ⟨f, hf, ?_, ?_⟩
        · rw [hs, ← hmap]
        · rw [← hmap]
    · intro f hf s hs
      rw [recentDetails]
      refine List.mem_filterMap.mpr ⟨f, hf, ?_⟩
      rw [hs]
      rfl
  · intro st hdl hne hbad
    unfold handle_list_zip
    dsimp only [pyGetD, Option.getD]
    rw [if_neg (not_not_intro hdl), if_neg hne]
    rw [statDetails_error_of_bad (zipCandidates st) hbad]

/-- C3 witness: one unreadable and one readable file in downloads. -/
theorem C3_only_list_recent_skips_unreadable_witness :
    (pathExists ⟨["/home/user/Downloads"],
        [⟨"/home/user/Downloads/bad.zip", Option.none⟩,
         ⟨"/home/user/Downloads/ok.zip", Option.some ⟨1, 1⟩⟩], []⟩
      DOWNLOADS_DIR = true ∧
     (handle_list_recent_downloads ⟨["/home/user/Downloads"],
        [⟨"/home/user/Downloads/bad.zip", Option.none⟩,
         ⟨"/home/user/Downloads/ok.zip", Option.some ⟨1, 1⟩⟩], []⟩ {}).2.isOk = true) ∧
    (zipCandidates ⟨["/home/user/Downloads"],
        [⟨"/home/user/Downloads/bad.zip", Option.none⟩,
         ⟨"/home/user/Downloads/ok.zip", Option.some ⟨1, 1⟩⟩], []⟩ ≠ [] ∧
     (handle_list_zip ⟨["/home/user/Downloads"],
        [⟨"/home/user/Downloads/bad.zip", Option.none⟩,
         ⟨"/home/user/Downloads/ok.zip", Option.some ⟨1, 1⟩⟩], []⟩ {}).2
       = Except.error (Err.osError "stat failed")) := by
  constructor
  · refine ⟨by decide, ?_⟩
    exact ((C3_only_list_recent_skips_unreadable).1 ⟨["/home/user/Downloads"],
      [⟨"/home/user/Downloads/bad.zip", Option.none⟩,
       ⟨"/home/user/Downloads/ok.zip", Option.some ⟨1, 1⟩⟩], []⟩ (by decide)).1
  · refine ⟨by decide, ?_⟩
    exact (C3_only_list_recent_skips_unreadable).2 ⟨["/home/user/Downloads"],
      [⟨"/home/user/Downloads/bad.zip", Option.none⟩,
       ⟨"/home/user/Downloads/ok.zip", Option.some ⟨1, 1⟩⟩], []⟩
      (by decide) (by decide)
      ⟨⟨"/home/user/Downloads/bad.zip", Option.none⟩, by decide, rfl⟩

/-! ### Claim C2 -/

/-- C2: the `unzip_latest` delegation is broken when the destination
argument is absent.  With one valid `a.zip` in downloads: the delegated
call fails with `AttributeError` (the handler forwards
`args.get("destination")`, putting a `destination` key bound to `None`
into the delegated bag, and `handle_unzip` then calls `.lower()` on
`None`), while invoking `unzip_file` directly without a destination
succeeds — so the two are not equivalent, contrary to the claim and to
the tool's own "defaults to Downloads" description.  When a destination
string is supplied, the delegation does produce the direct result modulo
the "latest download" message prefix. -/
theorem C2_latest_delegation_bug :
    (handle_unzip_latest ⟨["/home/user/Downloads"],
        [⟨"/home/user/Downloads/a.zip", Option.some ⟨1, 100⟩⟩],
        [("/home/user/Downloads/a.zip", ["f.txt"])]⟩ {}).2
      = Except.error (Err.attributeError "object has no attribute lower") ∧
    (handle_unzip ⟨["/home/user/Downloads"],
        [⟨"/home/user/Downloads/a.zip", Option.some ⟨1, 100⟩⟩],
        [("/home/user/Downloads/a.zip", ["f.txt"])]⟩
        { filename := Option.some (PyVal.vstr "a.zip") }).2
      = Except.ok ["Successfully unzipped a.zip to /home/user/Downloads/a\n\nExtracted 1 files:\nf.txt"] ∧
    (handle_unzip_latest ⟨["/home/user/Downloads"],
        [⟨"/home/user/Downloads/a.zip", Option.some ⟨1, 100⟩⟩],
        [("/home/user/Downloads/a.zip", ["f.txt"])]⟩
        { destination := Option.some (PyVal.vstr "downloads") }).2
      = Except.ok ["Successfully unzipped the latest download: a.zip to /home/user/Downloads/a\n\nExtracted 1 files:\nf.txt"] :=
  ⟨rfl, rfl, rfl⟩

/-! ### Claim C4 -/

theorem fnmatchAux_nil (fuel : Nat) (s : List Char) :
    fnmatchAux fuel [] s = s.isEmpty := by
  cases fuel <;> rfl

theorem fnmatchAux_lit :
    ∀ (pat : List Char), (∀ c ∈ pat, c ≠ '*' ∧ c ≠ '?' ∧ c ≠ '[') →
    ∀ (fuel : Nat) (s : List Char), pat.length ≤ fuel →
      (fnmatchAux fuel pat s = true ↔ s = pat) := by
  intro pat
  induction pat with
  | nil =>
    intro _ fuel s _
    rw [fnmatchAux_nil]
    cases s <;> simp
  | cons c cs ih =>
    intro hlit fuel s hfuel
    obtain ⟨hc1, hc2, hc3⟩ := hlit c (by simp)
    cases fuel with
    | zero => simp at hfuel
    | succ f =>
      show (if c = '*' then (List.tails s).any (fun t => fnmatchAux f cs t)
            else if c = '?' then
              (match s with
               | [] => false
               | _ :: s1 => fnmatchAux f cs s1)
            else if c = '[' then
              (match splitBracket cs with
               | Option.some (body, rest) =>
                 (match s with
                  | [] => false
                  | d :: s1 => classMatch body d && fnmatchAux f rest s1)
               | Option.none =>
                 (match s with
                  | [] => false
                  | d :: s1 => ('[' = d) && fnmatchAux f cs s1))
            else
              (match s with
               | [] => false
               | d :: s1 => (c = d) && fnmatchAux f cs s1)) = true ↔ s = c :: cs
      rw [if_neg hc1, if_neg hc2, if_neg hc3]
      cases s with
      | nil => simp
      | cons d s1 =>
        have hrest := ih (fun x hx => hlit x (by simp [hx])) f s1
          (by simp at hfuel; omega)
        constructor
        · intro h
          have h2 := h
          simp only [Bool.and_eq_true, decide_eq_true_eq] at h2
          obtain ⟨rfl, h3⟩ := h2
          rw [(hrest).mp h3]
        · rintro h
          rw [List.cons.injEq] at h
          obtain ⟨rfl, rfl⟩ := h
          simp only [Bool.and_eq_true, decide_eq_true_eq]
          exact ⟨trivial, (hrest).mpr rfl⟩

theorem fnmatchList_star_lit (lit : List Char)
    (hlit : ∀ c ∈ lit, c ≠ '*' ∧ c ≠ '?' ∧ c ≠ '[') (s : List Char) :
    (fnmatchList ('*' :: lit) s = true) ↔ lit <:+ s := by
  have hstep : fnmatchList ('*' :: lit) s
      = (List.tails s).any (fun t => fnmatchAux lit.length lit t) := by
    show fnmatchAux (lit.length + 1) ('*' :: lit) s = _
    show (if ('*' : Char) = '*' then (List.tails s).any (fun t => fnmatchAux lit.length lit t)
          else _) = _
    rw [if_pos rfl]
  rw [hstep, List.any_eq_true]
  constructor
  · rintro ⟨t, ht, hm⟩
    have := (fnmatchAux_lit lit hlit lit.length t (Nat.le_refl _)).mp hm
    subst this
    exact (List.mem_tails t s).mp ht
  · intro hsuf
    exact ⟨lit, (List.mem_tails lit s).mpr hsuf,
      (fnmatchAux_lit lit hlit lit.length lit (Nat.le_refl _)).mpr rfl⟩

/-- C4 counterexample: for the suffix `"a*"` (a suffix containing a glob
wildcard), `find_files` returns the downloads file `ab` — `rglob`
interprets the suffix as part of the shell pattern `*a*` — even though
the name `ab` does not end with `"a*"`; so the claim, quantified over
every suffix, fails. -/
theorem C4_wildcard_suffix_counterexample :
    find_files ⟨["/home/user/Downloads"],
        [⟨"/home/user/Downloads/ab", Option.some ⟨1, 1⟩⟩], []⟩
      DOWNLOADS_DIR "a*" = ["/home/user/Downloads/ab"] ∧
    endsWithStr (baseName "/home/user/Downloads/ab") "a*" = false := by
  exact ⟨by decide, by decide⟩

/-- C4 amended: for every suffix free of glob wildcard characters and of
the path separator, `find_files` returns exactly the regular files
strictly below the root whose final name ends with the suffix under the
ordinal case-sensitive comparison; when nothing matches it returns the
empty list (not an error). -/
theorem C4_find_files_exactly_suffix (S : String)
    (hS : ∀ c ∈ S.data, c ≠ '*' ∧ c ≠ '?' ∧ c ≠ '[' ∧ c ≠ '/') :
    (∀ (st : FS) (root p : String),
      p ∈ find_files st root S ↔
        ∃ f, f ∈ st.files ∧ f.path = p ∧
          List.isPrefixOf (root ++ "/").data p.data = true ∧
          endsWithStr (baseName p) S = true) ∧
    (∀ (st : FS) (root : String),
      (∀ f ∈ st.files, ¬ (List.isPrefixOf (root ++ "/").data f.path.data = true ∧
        endsWithStr (baseName f.path) S = true)) →
      find_files st root S = []) := by
  have hbridge : ∀ nm : String, fnmatchStr ("*" ++ S) nm = true ↔ endsWithStr nm S = true := by
    intro nm
    have hdata : ("*" ++ S).data = '*' :: S.data := by
      rw [String.data_append]
      rfl
    have h1 : fnmatchStr ("*" ++ S) nm = fnmatchList ('*' :: S.data) nm.data := by
      rw [fnmatchStr, hdata]
    rw [h1, fnmatchList_star_lit S.data
      (fun c hc => ⟨(hS c hc).1, (hS c hc).2.1, (hS c hc).2.2.1⟩) nm.data]
    rw [endsWithStr, List.isSuffixOf_iff_suffix]
  have hmem : ∀ (st : FS) (root p : String),
      p ∈ find_files st root S ↔
        ∃ f, f ∈ st.files ∧ f.path = p ∧
          List.isPrefixOf (root ++ "/").data p.data = true ∧
          endsWithStr (baseName p) S = true := by
    intro st root p
    rw [find_files]
    constructor
    · intro hp
      obtain ⟨f, hf, hg⟩ := List.mem_filterMap.mp hp
      by_cases hc : (List.isPrefixOf (root ++ "/").data f.path.data &&
          fnmatchStr ("*" ++ S) (baseName f.path)) = true
      · rw [if_pos hc] at hg
        injection hg with hg
        subst hg
        rw [Bool.and_eq_true] at hc
        exact ⟨f, hf, rfl, hc.1, (hbridge _).mp hc.2⟩
      · rw [if_neg hc] at hg
        cases hg
    · rintro ⟨f, hf, rfl, hpre, hends⟩
      refine List.mem_filterMap.mpr ⟨f, hf, ?_⟩
      have hc : (List.isPrefixOf (root ++ "/").data f.path.data &&
          fnmatchStr ("*" ++ S) (baseName f.path)) = true := by
        rw [Bool.and_eq_true]
        exact ⟨hpre, (hbridge _).mpr hends⟩
      rw [if_pos hc]
  refine ⟨hmem, ?_⟩
  intro st root hnone
  rw [List.eq_nil_iff_forall_not_mem]
  intro p hp
  obtain ⟨f, hf, rfl, hpre, hends⟩ := (hmem st root p).mp hp
  exact hnone f hf ⟨hpre, hends⟩

/-- C4 witness: the `.svg` suffix over a state holding `x.svg` and
`data.SVG`; the characterization applies and `x.svg` is found while the
upper-case `data.SVG` is not. -/
theorem C4_find_files_exactly_suffix_witness :
    (∀ c ∈ (".svg" : String).data, c ≠ '*' ∧ c ≠ '?' ∧ c ≠ '[' ∧ c ≠ '/') ∧
    (("/home/user/Downloads/x.svg" ∈ find_files ⟨["/home/user/Downloads"],
        [⟨"/home/user/Downloads/x.svg", Option.some ⟨1, 1⟩⟩,
         ⟨"/home/user/Downloads/data.SVG", Option.some ⟨1, 1⟩⟩], []⟩
        DOWNLOADS_DIR ".svg" ↔
      ∃ f, f ∈ (FS.mk ["/home/user/Downloads"]
          [⟨"/home/user/Downloads/x.svg", Option.some ⟨1, 1⟩⟩,
           ⟨"/home/user/Downloads/data.SVG", Option.some ⟨1, 1⟩⟩] []).files ∧
        f.path = "/home/user/Downloads/x.svg" ∧
        List.isPrefixOf (DOWNLOADS_DIR ++ "/").data "/home/user/Downloads/x.svg".data = true ∧
        endsWithStr (baseName "/home/user/Downloads/x.svg") ".svg" = true)) ∧
    find_files ⟨["/home/user/Downloads"],
        [⟨"/home/user/Downloads/x.svg", Option.some ⟨1, 1⟩⟩,
         ⟨"/home/user/Downloads/data.SVG", Option.some ⟨1, 1⟩⟩], []⟩
      DOWNLOADS_DIR ".svg" = ["/home/user/Downloads/x.svg"] := by
  refine ⟨by decide, ?_, by decide⟩
  exact (C4_find_files_exactly_suffix ".svg" (by decide)).1
    ⟨["/home/user/Downloads"],
      [⟨"/home/user/Downloads/x.svg", Option.some ⟨1, 1⟩⟩,
       ⟨"/home/user/Downloads/data.SVG", Option.some ⟨1, 1⟩⟩], []⟩
    DOWNLOADS_DIR "/home/user/Downloads/x.svg"
